import Mathlib

/-!
Verification development for the PPQ ONNX-runtime QDQ export pipeline
(`ppq/parser/onnxruntime_exporter.py`, `ppq/parser/ascend_export.py`).

The graph-rewriting code is shallowly embedded: tensors are lists of
rationals with a dtype tag, the mutable PPQ graph is an explicit record
(operation registry, variable registry, declared inputs/outputs, opset
declarations, fresh-name counter), and each Python method becomes an
executable Lean function performing the same sequence of edits.

Graph primitive operations (`BaseGraph` from `ppq.IR`) and the parameter
quantization kernel (`PPQLinearQuant_toInt` from
`ppq.quantization.qfunction.linear`) are not part of the sources; those
definitions are modelled from the specification and carry a doc comment
saying so.
-/

/-- Tensor element dtypes that occur in the exporter. -/
inductive DType where
  | int8
  | uint8
  | int32
  | int64
  | fp32
deriving DecidableEq, Repr

/-- A tensor value: a dtype tag together with flat (row-major) data,
elements modelled as exact rationals. -/
structure TensorVal where
  dtype : DType
  data : List ℚ
deriving DecidableEq, Repr

/-- Modelled from the spec: (§3 data model, `ppq.core` not in the
sources) the numeric policy of a
quantization config is a combination of three binary alternatives,
linear/floating, symmetric/asymmetric, per-tensor/per-channel.
`QuantizationPolicy.has_property(LINEAR)` is `linear = true`,
`FLOATING` is `linear = false`, `SYMMETRICAL` is `symmetric = true`,
`ASYMMETRICAL` is `symmetric = false`, `PER_CHANNEL` is
`perChannel = true`, `PER_TENSOR` is `perChannel = false`. -/
structure QuantizationPolicy where
  linear : Bool
  symmetric : Bool
  perChannel : Bool
deriving DecidableEq, Repr

/-- Lifecycle states of a quantization config (spec §3). -/
inductive QuantizationStates where
  | FP32
  | SOI
  | ACTIVATED
  | BAKED
  | PASSIVE
  | PASSIVE_BAKED
deriving DecidableEq, Repr

/-- Export visibility of a quantization config. -/
inductive QuantizationVisibility where
  | EXPORTABLE
  | INTERNAL
deriving DecidableEq, Repr

/-- Per-tensor quantization config (`TensorQuantizationConfig`).
`can_export_flag` models the result of the `ppq.core` method
`TQC.can_export()` (not in the sources): the general
"can be exported" flag determined by the config's lifecycle state. -/
structure TensorQuantizationConfig where
  policy : QuantizationPolicy
  num_of_bits : ℕ
  scale : List ℚ
  offset : List ℚ
  quant_min : ℤ
  quant_max : ℤ
  state : QuantizationStates
  visibility : QuantizationVisibility
  channel_axis : ℤ
  exponent_bits : ℤ
  mantissa_bits : ℤ
  can_export_flag : Bool
deriving DecidableEq, Repr

/-- Variable / operation names.  PPQ generates fresh names from a global
counter (`PPQ_Variable_{n}` style) which never collide with user names;
generated names are modelled as a separate constructor. -/
inductive GName where
  | user (s : String)
  | gen (n : ℕ)
deriving DecidableEq, Repr

/-- Attribute values attached to an operation. -/
inductive AttrValue where
  | int (i : ℤ)
  | ints (l : List ℤ)
  | rat (q : ℚ)
  | str (s : String)
deriving DecidableEq, Repr

/-- Quantization configs bound to a quantable operation, one per input
and one per output. -/
structure OpQuantConfig where
  input_quantization_config : List TensorQuantizationConfig
  output_quantization_config : List TensorQuantizationConfig
deriving DecidableEq, Repr

/-- A graph operation.  `quant = some _` models a `QuantableOperation`;
`input_metas` counts the meta records appended by the opset adapter. -/
structure Operation where
  name : GName
  type : String
  inputs : List GName
  outputs : List GName
  attributes : List (String × AttrValue)
  quant : Option OpQuantConfig
  input_metas : ℕ
deriving DecidableEq, Repr

/-- A graph variable (named tensor slot). -/
structure Variable where
  name : GName
  is_parameter : Bool
  value : Option TensorVal
deriving DecidableEq, Repr

/-- Modelled from the spec: (§3 graph model, `ppq.IR.BaseGraph` not in
the sources) the graph owns the
operation registry (in registration order), the variable registry, the
declared input/output name sets (`graph.inputs` / `graph.outputs`,
modelled as ordered name lists), graph-level opset declarations
(`graph._detail[GRAPH_OPSET_ATTRIB]`) and a fresh-name counter backing
`create_variable(name=None)` / `create_operation(name=None)`. -/
structure BaseGraph where
  operations : List Operation
  vars : List Variable
  inputs : List GName
  outputs : List GName
  opsets : List (String × ℤ)
  counter : ℕ
deriving DecidableEq, Repr

/-- Look up an operation by name in the registry. -/
def BaseGraph.lookupOp (g : BaseGraph) (n : GName) : Option Operation :=
  g.operations.find? (fun o => decide (o.name = n))

/-- Look up a variable by name in the registry. -/
def BaseGraph.lookupVar (g : BaseGraph) (n : GName) : Option Variable :=
  g.vars.find? (fun v => decide (v.name = n))

/-- The names of all registered operations. -/
def BaseGraph.opNames (g : BaseGraph) : List GName :=
  g.operations.map (·.name)

/-- Modelled from the spec: (§3, `ppq.IR` adjacency) the producer of a
variable is the operation holding it among its outputs (at most one). -/
def BaseGraph.producerOf (g : BaseGraph) (n : GName) : Option Operation :=
  g.operations.find? (fun o => decide (n ∈ o.outputs))

/-- Modelled from the spec: (§3, `ppq.IR` adjacency) the destination
operations of a
variable (`var.dest_ops`), one entry per consuming input slot, in
registry order. -/
def BaseGraph.destOps (g : BaseGraph) (n : GName) : List Operation :=
  g.operations.foldr
    (fun o acc => List.replicate (o.inputs.count n) o ++ acc) []

/-- Modelled from the spec: (`ppq.IR`, not in the sources)
`graph.get_upstream_operations(op)` — the producers of the
operation's inputs, in input order (inputs without a producer, e.g.
parameters, contribute nothing). -/
def BaseGraph.get_upstream_operations (g : BaseGraph) (op : Operation) :
    List Operation :=
  op.inputs.filterMap (fun n => g.producerOf n)

/-- Modelled from the spec: (`ppq.IR`, not in the sources)
`graph.get_downstream_operations(op)` — the consumers of the
operation's outputs. -/
def BaseGraph.get_downstream_operations (g : BaseGraph) (op : Operation) :
    List Operation :=
  (op.outputs.map (fun n => g.destOps n)).flatten

/-- Modelled from the spec: (`ppq.IR.BaseGraph.remove_operation`, not in
the sources) drop the operation from the registry.
Adjacency is derived from the name lists here, so dropping the record
detaches all its links; its scale/offset parameter variables stay
behind, matching the source (a commented-out DELETE_ISOLATED pass in
`remove_activation_ops` would have collected them). -/
def BaseGraph.remove_operation (g : BaseGraph) (n : GName) : BaseGraph :=
  { g with operations := g.operations.filter (fun o => decide (o.name ≠ n)) }

/-- Rebind one operation record: every input slot holding `old` now
holds `new`. -/
def Operation.replaceInput (old new : GName) (o : Operation) : Operation :=
  { o with inputs := o.inputs.map (fun i => if i = old then new else i) }

/-- Modelled from the spec: (§4.4 "its single input reconnected directly
to its single output"; `ppq.IR.BaseGraph.create_link_with_var` not in
the sources) rebinds
every consumer of the downstream variable to the upstream variable and
drops the now-sourceless downstream variable from the registry; the
declared graph outputs are not touched (the caller rebinds them
explicitly when needed). -/
def BaseGraph.create_link_with_var (g : BaseGraph) (up down : GName) :
    BaseGraph :=
  { g with
    operations := g.operations.map (Operation.replaceInput down up)
    vars := g.vars.filter (fun v => decide (v.name ≠ down)) }

/-- Modelled from the spec: (`ppq.utils.round.ppq_tensor_round`, not in
the sources) round to nearest, with ties to even — PPQ's default
ROUND_HALF_EVEN policy. -/
def roundHE (q : ℚ) : ℤ :=
  let f := ⌊q⌋
  let r := q - f
  if r < 1/2 then f
  else if 1/2 < r then f + 1
  else if f % 2 = 0 then f else f + 1

/-- Integer cast with two's-complement wrap-around, modelling
`torch.Tensor.type(dtype)` on already-integral data. -/
def castInt (d : DType) (n : ℤ) : ℤ :=
  match d with
  | DType.int8 => ((n + 128) % 2 ^ 8) - 128
  | DType.uint8 => n % 2 ^ 8
  | DType.int32 => ((n + 2 ^ 31) % 2 ^ 32) - 2 ^ 31
  | DType.int64 => ((n + 2 ^ 63) % 2 ^ 64) - 2 ^ 63
  | DType.fp32 => n

/-- `ONNXRUNTIMExporter.infer_qtype`: the (offset dtype, value dtype)
pair implied by a config — int8 by default, uint8 when asymmetric,
int32 when more than 16 bits; the source assigns sequentially, the
bit-width override winning. -/
def infer_qtype (config : TensorQuantizationConfig) : DType × DType :=
  if config.num_of_bits > 16 then (DType.int32, DType.int32)
  else if ¬ config.policy.symmetric then (DType.uint8, DType.uint8)
  else (DType.int8, DType.int8)

/-- `QDQHelper.TQC_Exportable_Check`: decides whether a config is worth
exporting.  Mirrors the source line by line; the `meta_check` local of
the source is computed and never used, so it is omitted.  The bound
variable argument only feeds the warning message. -/
def TQC_Exportable_Check (TQC : TensorQuantizationConfig)
    (_bounded_var : Variable) : Bool :=
  if ¬ TQC.can_export_flag then false
  else if TQC.visibility = QuantizationVisibility.INTERNAL then false
  else
    let range_check :=
      if TQC.num_of_bits = 8 ∧ TQC.policy.linear then
        if ¬ TQC.policy.symmetric then
          decide (TQC.quant_max ≤ 255 ∧ TQC.quant_min ≥ 0)
        else decide (TQC.quant_max ≤ 127 ∧ TQC.quant_min ≥ -128)
      else true
    if ¬ range_check then false else true

/-- Machine epsilon of IEEE single precision, as written in
`ascend_export.py` (`FLT_EPSILON = 1.1920929e-7`), as an exact
rational. -/
def FLT_EPSILON : ℚ := 11920929 / 100000000000000

/-- `adapt_scale` from `ascend_export.py`: clamp a scale value into the
window `[FLT_EPSILON, 1/FLT_EPSILON]`; the operation argument only
feeds the warning message. -/
def adapt_scale (_op : String) (scale : ℚ) : ℚ :=
  if scale < FLT_EPSILON then FLT_EPSILON
  else if scale > 1 / FLT_EPSILON then 1 / FLT_EPSILON
  else scale

/-- Common body of `insert_quant_on_variable` and
`insert_dequant_on_variable`: create the scale and zero-point parameter
variables, register the new operation, and splice it in — between the
variable and `related` when the variable is an input of `related`
(`graph.insert_op_between_var_and_op`), otherwise directly after the
variable's production point (`graph.insert_op_on_var`, rebinding every
consumer); finally the scale/zero-point variables are linked as the
second and third inputs (`graph.create_link_with_op`).  The insertion
primitives themselves are modelled from the spec (§4.2 insertion
mechanics; `ppq.IR` is not in the sources).  Returns the updated graph,
the created operation's name and its fresh output variable's name. -/
def insertCore (g : BaseGraph) (opType : String)
    (attrs : List (String × AttrValue)) (sVal zVal : TensorVal)
    (varName : GName) (related : Option GName) :
    BaseGraph × GName × GName :=
  let sN := GName.gen g.counter
  let zN := GName.gen (g.counter + 1)
  let opN := GName.gen (g.counter + 2)
  let outN := GName.gen (g.counter + 3)
  let between :=
    match related with
    | some r =>
      match g.lookupOp r with
      | some ro => decide (varName ∈ ro.inputs)
      | none => false
    | none => false
  let reboundOps :=
    if between then
      g.operations.map (fun o =>
        match related with
        | some r => if o.name = r then Operation.replaceInput varName outN o else o
        | none => o)
    else g.operations.map (Operation.replaceInput varName outN)
  let created : Operation :=
    { name := opN, type := opType, inputs := [varName, sN, zN]
      outputs := [outN], attributes := attrs, quant := none, input_metas := 0 }
  ({ g with
      operations := reboundOps ++ [created]
      vars := g.vars ++
        [{ name := sN, is_parameter := true, value := some sVal },
         { name := zN, is_parameter := true, value := some zVal },
         { name := outN, is_parameter := false, value := none }]
      counter := g.counter + 4 },
   opN, outN)

/-- `ONNXRUNTIMExporter.insert_quant_on_variable`: insert a
QuantizeLinear (or QuantizeFloating) node on the given variable.  In
the linear branch the offset parameter is rounded and cast to the
inferred offset dtype and the axis attribute is the channel axis for
per-channel configs and 0 for per-tensor configs (the opset-13 patch);
in the floating branch scale and offset stay float and the node carries
min/max/exponent/mantissa attributes.  With the policy's two-valued
linear/floating alternative the source's final `TypeError` branch is
unreachable. -/
def insert_quant_on_variable (g : BaseGraph) (varName : GName)
    (config : TensorQuantizationConfig) (related_op : Option GName) :
    BaseGraph × GName × GName :=
  if config.policy.linear then
    let od := (infer_qtype config).1
    let scale : TensorVal := { dtype := DType.fp32, data := config.scale }
    let offset : TensorVal :=
      { dtype := od
        data := config.offset.map (fun q => ((castInt od (roundHE q) : ℤ) : ℚ)) }
    let attrs :=
      if config.policy.perChannel then [("axis", AttrValue.int config.channel_axis)]
      else [("axis", AttrValue.int 0)]
    insertCore g "QuantizeLinear" attrs scale offset varName related_op
  else
    let scale : TensorVal := { dtype := DType.fp32, data := config.scale }
    let offset : TensorVal := { dtype := DType.fp32, data := config.offset }
    let attrs :=
      [("min", AttrValue.int config.quant_min),
       ("max", AttrValue.int config.quant_max),
       ("exponent", AttrValue.int config.exponent_bits),
       ("mantissa", AttrValue.int config.mantissa_bits)] ++
      (if config.policy.perChannel then [("axis", AttrValue.int config.channel_axis)]
       else [])
    insertCore g "QuantizeFloating" attrs scale offset varName related_op

/-- `ONNXRUNTIMExporter.insert_dequant_on_variable`: insert a
DequantizeLinear (or DequantizeFloating) node on the given variable;
same structure as the quantize insertion, with a mandatory related
operation (the source dereferences it unconditionally). -/
def insert_dequant_on_variable (g : BaseGraph) (varName : GName)
    (config : TensorQuantizationConfig) (related_op : GName) :
    BaseGraph × GName × GName :=
  if config.policy.linear then
    let od := (infer_qtype config).1
    let scale : TensorVal := { dtype := DType.fp32, data := config.scale }
    let offset : TensorVal :=
      { dtype := od
        data := config.offset.map (fun q => ((castInt od (roundHE q) : ℤ) : ℚ)) }
    let attrs :=
      if config.policy.perChannel then [("axis", AttrValue.int config.channel_axis)]
      else [("axis", AttrValue.int 0)]
    insertCore g "DequantizeLinear" attrs scale offset varName (some related_op)
  else
    let scale : TensorVal := { dtype := DType.fp32, data := config.scale }
    let offset : TensorVal := { dtype := DType.fp32, data := config.offset }
    let attrs :=
      [("min", AttrValue.int config.quant_min),
       ("max", AttrValue.int config.quant_max),
       ("exponent", AttrValue.int config.exponent_bits),
       ("mantissa", AttrValue.int config.mantissa_bits)] ++
      (if config.policy.perChannel then [("axis", AttrValue.int config.channel_axis)]
       else [])
    insertCore g "DequantizeFloating" attrs scale offset varName (some related_op)

/-- `tensor.item()` on a (singleton) tensor value. -/
def tensorItem (t : TensorVal) : Option ℚ :=
  t.data.head?

/-- First phase of `remove_activation_ops` (the candidate-collection
loop): a quantable Relu/Clip whose first output config is not
symmetric, whose realizable range `[min (scale*(quant_min-offset)),
max (scale*(quant_max-offset))]` certifies the clamp redundant — for
Relu, range minimum ≥ 0; for Clip (with its 3 inputs), range inside the
literal clip bounds, an absent bound value counting as ±∞.  The
source's `isinstance(…, torch.Tensor)` guards on scale/offset always
hold in this model, where configs carry tensor scale/offset. -/
def candidateCheck (g : BaseGraph) (op : Operation) : Bool :=
  match op.quant with
  | none => false
  | some qc =>
    if ¬ (op.type = "Relu" ∨ op.type = "Clip") then false
    else
      match qc.output_quantization_config.head? with
      | none => false
      | some config =>
        if config.policy.symmetric then false
        else
          let rmins := List.zipWith
            (fun s z => s * ((config.quant_min : ℚ) - z)) config.scale config.offset
          let rmaxs := List.zipWith
            (fun s z => s * ((config.quant_max : ℚ) - z)) config.scale config.offset
          match rmins.min?, rmaxs.max? with
          | some range_min, some range_max =>
            if op.type = "Relu" then decide (0 ≤ range_min)
            else
              if op.inputs.length = 3 then
                let clip_min := (op.inputs[1]?.bind g.lookupVar).bind
                  (fun v => v.value.bind tensorItem)
                let clip_max := (op.inputs[2]?.bind g.lookupVar).bind
                  (fun v => v.value.bind tensorItem)
                (match clip_min with
                 | none => true
                 | some m => decide (m ≤ range_min)) &&
                (match clip_max with
                 | none => true
                 | some m => decide (range_max ≤ m))
              else false
          | _, _ => false

/-- Second phase guards of `remove_activation_ops`: the candidate is
still quantable, has at least one upstream producer, that (first)
producer is itself quantable and has exactly one downstream consumer,
and the candidate's first input config is asymmetric. -/
def elisionGuard (g : BaseGraph) (op : Operation) : Bool :=
  match op.quant with
  | none => false
  | some qc =>
    match (g.get_upstream_operations op).head? with
    | none => false
    | some upstream_op =>
      if upstream_op.quant.isNone then false
      else if ¬ ((g.get_downstream_operations upstream_op).length = 1) then false
      else
        match qc.input_quantization_config.head? with
        | none => false
        | some input_cfg => ¬ input_cfg.policy.symmetric

/-- The elision body of `remove_activation_ops`: rebind the declared
graph output if the activation produced one, splice the node out
(reconnecting its single input to its single output), then insert a
dequantize and a quantize node on the former input edge, both carrying
the elided node's *output* quantization config
(`op.config.output_quantization_config[0]`). -/
def elideOp (g : BaseGraph) (op : Operation) : BaseGraph :=
  match op.quant, (g.get_upstream_operations op).head?,
        op.inputs.head?, op.outputs.head? with
  | some qc, some upstream_op, some input_var, some output_var =>
    match qc.output_quantization_config.head? with
    | none => g
    | some quant_config =>
      let g1 :=
        if output_var ∈ g.outputs then
          let outs := g.outputs.filter (fun n => decide (n ≠ output_var))
          { g with outputs := if input_var ∈ outs then outs else outs ++ [input_var] }
        else g
      let g2 := g1.remove_operation op.name
      let g3 := g2.create_link_with_var input_var output_var
      let g4 := (insert_dequant_on_variable g3 input_var quant_config upstream_op.name).1
      (insert_quant_on_variable g4 input_var quant_config (some upstream_op.name)).1
  | _, _, _, _ => g

/-- `ONNXRUNTIMExporter.remove_activation_ops`: collect the redundant
Relu/Clip candidates on the original graph, then process them in order,
re-reading each candidate's record and guards from the current
(already-mutated) graph, exactly as the Python loop observes in-place
mutation through object references. -/
def remove_activation_ops (g : BaseGraph) : BaseGraph :=
  let cands := (g.operations.filter (fun op => candidateCheck g op)).map (·.name)
  cands.foldl
    (fun h n =>
      match h.lookupOp n with
      | none => h
      | some op => if elisionGuard h op then elideOp h op else h) g

/-- Fatal export failures (Python `AssertionError`s of the exporter). -/
inductive ExportErr where
  | multiConsumer (v : GName)
  | brokenGraph
deriving DecidableEq, Repr

/-- The flat data of the i-th input variable's value of an operation. -/
def inputValData (g : BaseGraph) (op : Operation) (i : ℕ) : Option (List ℚ) :=
  ((op.inputs[i]?.bind g.lookupVar).bind (fun v => v.value)).map (fun t => t.data)

/-- `torch.max(torch.abs(a - b)).item()` on two equally-shaped
tensors. -/
def maxAbsDiff (a b : List ℚ) : Option ℚ :=
  (List.zipWith (fun x y => |x - y|) a b).max?

/-- Detection loop of `remove_duplicated_quant_op`: every QuantizeLinear
node with exactly one upstream producer which is a DequantizeLinear
node, paired with that producer. -/
def interestedPairs (g : BaseGraph) : List (Operation × Operation) :=
  g.operations.filterMap (fun qt =>
    if qt.type = "QuantizeLinear" then
      match g.get_upstream_operations qt with
      | [dq] => if dq.type = "DequantizeLinear" then some (qt, dq) else none
      | _ => none
    else none)

/-- Ordered set insertion (Python `set.add`, iteration modelled in
insertion order). -/
def insertName (l : List GName) (n : GName) : List GName :=
  if n ∈ l then l else l ++ [n]

/-- Marking loop of `remove_duplicated_quant_op`: a pair whose scale
constants differ by less than `1e-5` and whose zero-point constants
differ by less than `0.5` marks the quantize node and its single
downstream consumer for removal; a marked quantize node with a number
of downstream consumers other than one trips the source's
`assert len(...) == 1, 'Oops, that should never happen.'`.  Missing
constant values yield no mark (they cannot occur for the inserted QDQ
nodes this pass runs on). -/
def computeMarks (g : BaseGraph) : Except ExportErr (List GName) :=
  (interestedPairs g).foldlM
    (fun marks pr =>
      let qt := pr.1
      let dq := pr.2
      let sd :=
        match inputValData g dq 1, inputValData g qt 1 with
        | some a, some b => maxAbsDiff a b
        | _, _ => none
      let zd :=
        match inputValData g dq 2, inputValData g qt 2 with
        | some a, some b => maxAbsDiff a b
        | _, _ => none
      match sd, zd with
      | some s, some z =>
        if s < 1 / 100000 ∧ z < 1 / 2 then
          match g.get_downstream_operations qt with
          | [c] => Except.ok (insertName (insertName marks qt.name) c.name)
          | _ => Except.error ExportErr.brokenGraph
        else Except.ok marks
      | _, _ => Except.ok marks)
    []

/-- Removal body shared by the collapse pass: read the (current) record
of the named operation, drop it and splice its first input directly to
its first output. -/
def spliceOutOp (g : BaseGraph) (n : GName) : BaseGraph :=
  match g.lookupOp n with
  | none => g
  | some op =>
    match op.inputs.head?, op.outputs.head? with
    | some iv, some ov => (g.remove_operation n).create_link_with_var iv ov
    | _, _ => g

/-- `ONNXRUNTIMExporter.remove_duplicated_quant_op`: collapse
`Dequantize → Quantize` round-trips whose scale/offset agree within
tolerance, removing the quantize node and its single consumer and
splicing the chain's input to its output; the structural assertion
aborts the pass. -/
def remove_duplicated_quant_op (g : BaseGraph) : Except ExportErr BaseGraph :=
  match computeMarks g with
  | Except.error e => Except.error e
  | Except.ok marks => Except.ok (marks.foldl spliceOutOp g)

/-- BAKED→ACTIVATED and PASSIVE_BAKED→PASSIVE state normalization the
engine performs on parameter configs before insertion. -/
def normalizeState (c : TensorQuantizationConfig) : TensorQuantizationConfig :=
  if c.state = QuantizationStates.BAKED then
    { c with state := QuantizationStates.ACTIVATED }
  else if c.state = QuantizationStates.PASSIVE_BAKED then
    { c with state := QuantizationStates.PASSIVE }
  else c

/-- Write a normalized config back into the bound operation's config
list (the Python code mutates the shared config object in place). -/
def writeBackCfg (g : BaseGraph) (opName : GName) (isInput : Bool) (idx : ℕ)
    (cfg : TensorQuantizationConfig) : BaseGraph :=
  { g with
    operations := g.operations.map (fun o =>
      if o.name = opName then
        match o.quant with
        | none => o
        | some qc =>
          if isInput then
            { o with quant := some ({ qc with input_quantization_config :=
                  qc.input_quantization_config.set idx cfg }) }
          else
            { o with quant := some ({ qc with output_quantization_config :=
                  qc.output_quantization_config.set idx cfg }) }
      else o) }

/-- Modelled from the spec: (§4.2;
`ppq.quantization.qfunction.linear.PPQLinearQuant_toInt`, not in the
sources) the quantized integer representation of a parameter tensor —
divide by scale, round to nearest, add the offset, clamp to
`[quant_min, quant_max]`, then cast to the narrow dtype implied by the
policy (int8 symmetric, uint8 asymmetric, int32 above 16 bits; the
per-tensor scale/offset is the leading element). -/
def PPQLinearQuant_toInt (t : TensorVal) (c : TensorQuantizationConfig) :
    TensorVal :=
  let s := c.scale.headD 1
  let z := roundHE (c.offset.headD 0)
  let vd := (infer_qtype c).2
  { dtype := vd
    data := t.data.map (fun x =>
      ((castInt vd (max c.quant_min (min c.quant_max (roundHE (x / s) + z))) : ℤ) : ℚ)) }

/-- Update a variable's stored value in place. -/
def updateVarValue (g : BaseGraph) (n : GName) (f : TensorVal → TensorVal) :
    BaseGraph :=
  { g with vars := g.vars.map (fun v =>
      if v.name = n then { v with value := v.value.map f } else v) }

/-- One step of `ONNXRUNTIMExporter.convert_operation` for a single
(config, variable) pair of `op.config_with_variable`: skip
non-exportable configs; for exportable parameters (when parameter
processing is on) assert unique ownership, normalize the lifecycle
state, and insert either a bare dequantize node (integer folding, with
the value rewritten in place for linear policies) or a
quantize+dequantize pair (float parameters); for exportable activations
(when activation processing is on) insert a quantize node followed by a
dequantize node on its output edge. -/
def processPair (opName : GName) (pa pp qpi : Bool) (g : BaseGraph)
    (item : Bool × ℕ × TensorQuantizationConfig × GName) :
    Except ExportErr BaseGraph :=
  let isInput := item.1
  let idx := item.2.1
  let config := item.2.2.1
  let varName := item.2.2.2
  match g.lookupVar varName with
  | none => Except.ok g
  | some v =>
    if ¬ TQC_Exportable_Check config v then Except.ok g
    else if v.is_parameter && pp then
      if ¬ ((g.destOps varName).length = 1) then
        Except.error (ExportErr.multiConsumer varName)
      else
        let config := normalizeState config
        let g := writeBackCfg g opName isInput idx config
        if ¬ qpi then
          let r := insert_quant_on_variable g varName config (some opName)
          Except.ok (insert_dequant_on_variable r.1 r.2.2 config opName).1
        else
          let g := (insert_dequant_on_variable g varName config opName).1
          if config.policy.linear then
            Except.ok (updateVarValue g varName
              (fun t => PPQLinearQuant_toInt t config))
          else Except.ok g
    else if (¬ v.is_parameter) && pa then
      let r := insert_quant_on_variable g varName config (some opName)
      Except.ok (insert_dequant_on_variable r.1 r.2.2 config opName).1
    else Except.ok g

/-- `ONNXRUNTIMExporter.convert_operation`: process every
(config, variable) pair of the operation (input configs zipped with
inputs, then output configs zipped with outputs — the
`config_with_variable` snapshot) in order, threading the mutated
graph. -/
def convert_operation (g : BaseGraph) (opName : GName)
    (process_activation process_parameter quant_param_to_int : Bool) :
    Except ExportErr BaseGraph :=
  match g.lookupOp opName with
  | none => Except.ok g
  | some op0 =>
    match op0.quant with
    | none => Except.ok g
    | some qc =>
      let items :=
        ((qc.input_quantization_config.zip op0.inputs).enum.map
          (fun p => (true, p.1, p.2.1, p.2.2))) ++
        ((qc.output_quantization_config.zip op0.outputs).enum.map
          (fun p => (false, p.1, p.2.1, p.2.2)))
      items.foldlM
        (fun h it =>
          processPair opName process_activation process_parameter
            quant_param_to_int h it) g

/-- Attribute lookup on an operation's attribute mapping. -/
def attrFind (attrs : List (String × AttrValue)) (k : String) :
    Option AttrValue :=
  (attrs.find? (fun p => decide (p.1 = k))).map (fun p => p.2)

/-- `op.attributes.pop(k)`, the removal part. -/
def attrRemove (attrs : List (String × AttrValue)) (k : String) :
    List (String × AttrValue) :=
  attrs.filter (fun p => decide (p.1 ≠ k))

/-- `convert_any_to_torch_tensor(attr, dtype=torch.int64)` on an
attribute value (in practice an integer list). -/
def attrToInt64Tensor (a : AttrValue) : TensorVal :=
  match a with
  | AttrValue.ints l => { dtype := DType.int64, data := l.map (fun i => (i : ℚ)) }
  | AttrValue.int i => { dtype := DType.int64, data := [(i : ℚ)] }
  | AttrValue.rat q => { dtype := DType.int64, data := [((⌊q⌋ : ℤ) : ℚ)] }
  | AttrValue.str _ => { dtype := DType.int64, data := [] }

/-- Body of the opset adapter: walk the operation registry; for every
ReduceSum/Squeeze/Unsqueeze still carrying a literal `axes` attribute
(resp. Split carrying `split`), pop the attribute, materialize its
values as a fresh rank-1 int64 parameter variable, link it as an extra
input and record the appended input meta; every other operation is
left untouched.  Threads the variable registry and fresh-name
counter. -/
def upgradeOps : List Operation → List Variable → ℕ →
    List Operation × List Variable × ℕ
  | [], vs, c => ([], vs, c)
  | op :: rest, vs, c =>
    if op.type = "ReduceSum" ∨ op.type = "Squeeze" ∨ op.type = "Unsqueeze" then
      match attrFind op.attributes "axes" with
      | none =>
        let res := upgradeOps rest vs c
        (op :: res.1, res.2)
      | some a =>
        let t := attrToInt64Tensor a
        let vn := GName.gen c
        let op2 : Operation :=
          { op with
            attributes := attrRemove op.attributes "axes"
            inputs := op.inputs ++ [vn]
            input_metas := op.input_metas + 1 }
        let res := upgradeOps rest
          (vs ++ [{ name := vn, is_parameter := true, value := some t }]) (c + 1)
        (op2 :: res.1, res.2)
    else if op.type = "Split" then
      match attrFind op.attributes "split" with
      | none =>
        let res := upgradeOps rest vs c
        (op :: res.1, res.2)
      | some a =>
        let t := attrToInt64Tensor a
        let vn := GName.gen c
        let op2 : Operation :=
          { op with
            attributes := attrRemove op.attributes "split"
            inputs := op.inputs ++ [vn]
            input_metas := op.input_metas + 1 }
        let res := upgradeOps rest
          (vs ++ [{ name := vn, is_parameter := true, value := some t }]) (c + 1)
        (op2 :: res.1, res.2)
    else
      let res := upgradeOps rest vs c
      (op :: res.1, res.2)

/-- `ONNXRUNTIMExporter.convert_operation_from_opset11_to_opset13`. -/
def convert_operation_from_opset11_to_opset13 (g : BaseGraph) : BaseGraph :=
  let res := upgradeOps g.operations g.vars g.counter
  { g with operations := res.1, vars := res.2.1, counter := res.2.2 }

/-- `ONNXRUNTIMExporter.required_opsets`: the exporter's required
minimum schema versions. -/
def required_opsets : List (String × ℤ) :=
  [("ai.onnx", 13)]

/-- The opset declarations `export` emits: pre-existing graph
declarations whose domain is neither a required domain nor the empty
string, followed by the required opsets. -/
def exportOpsets (g : BaseGraph) : List (String × ℤ) :=
  (g.opsets.filter (fun o =>
    decide (¬ (o.1 ∈ required_opsets.map Prod.fst ∨ o.1 = "")))) ++
  required_opsets

/-- `ONNXRUNTIMExporter.prepare_graph`: run the opset adapter, convert
every (quantable) operation of the snapshot taken afterwards, remove
redundant activations when requested, and collapse duplicated quant
chains. -/
def prepare_graph (g : BaseGraph)
    (process_activation process_parameter : Bool)
    (remove_activation_fn : Bool)
    (quant_parameter_to_int : Bool) : Except ExportErr BaseGraph :=
  let g1 := convert_operation_from_opset11_to_opset13 g
  let names := g1.operations.map (fun o => o.name)
  match names.foldlM
      (fun h n =>
        convert_operation h n process_activation process_parameter
          quant_parameter_to_int) g1 with
  | Except.error e => Except.error e
  | Except.ok g2 =>
    let g3 := if remove_activation_fn then remove_activation_ops g2 else g2
    remove_duplicated_quant_op g3

/-- The graph-preparation stage of `ONNXRUNTIMExporter.export`
(serialization out of scope here): the source's body is
`graph = self.prepare_graph(graph)`, with every argument left at its
default (`True, True, True, True`), whatever `export_QDQ_op`,
`quantized_param`, `remove_activation` and `save_as_external_data` the
caller supplied. -/
def exportPrepared (g : BaseGraph) (_export_QDQ_op : Bool)
    (_quantized_param : Bool) (_remove_activation : Bool)
    (_save_as_external_data : Bool) : Except ExportErr BaseGraph :=
  prepare_graph g true true true true

/-- A graph whose only pre-existing opset declaration is `ai.onnx` at
version 15, above the exporter's required version 13. -/
def c8Graph : BaseGraph :=
  { operations := [], vars := [], inputs := [], outputs := []
    opsets := [("ai.onnx", 15)], counter := 0 }

/-- An exportable, asymmetric, 8-bit linear per-tensor config with
scale `0.1`, offset `0`, range `[0, 255]` — realizable output range
`[0.0, 25.5]`. -/
def asymCfg8 : TensorQuantizationConfig :=
  { policy := { linear := true, symmetric := false, perChannel := false }
    num_of_bits := 8, scale := [1/10], offset := [0]
    quant_min := 0, quant_max := 255
    state := QuantizationStates.ACTIVATED
    visibility := QuantizationVisibility.EXPORTABLE
    channel_axis := 0, exponent_bits := 0, mantissa_bits := 0
    can_export_flag := true }

/-- The symmetric sibling of `asymCfg8` (range `[-128, 127]`). -/
def symCfg8 : TensorQuantizationConfig :=
  { policy := { linear := true, symmetric := true, perChannel := false }
    num_of_bits := 8, scale := [1/10], offset := [0]
    quant_min := -128, quant_max := 127
    state := QuantizationStates.ACTIVATED
    visibility := QuantizationVisibility.EXPORTABLE
    channel_axis := 0, exponent_bits := 0, mantissa_bits := 0
    can_export_flag := true }

/-- A quantized producer feeding the Relu below. -/
def c2Conv : Operation :=
  { name := GName.user "conv", type := "Conv"
    inputs := [GName.user "x"], outputs := [GName.user "v"]
    attributes := []
    quant := some { input_quantization_config := []
                    output_quantization_config := [] }
    input_metas := 0 }

/-- A quantized Relu whose *output* config is asymmetric with
realizable range `[0.0, 25.5]`, but whose *input* config is
symmetric. -/
def c2Relu : Operation :=
  { name := GName.user "relu", type := "Relu"
    inputs := [GName.user "v"], outputs := [GName.user "w"]
    attributes := []
    quant := some { input_quantization_config := [symCfg8]
                    output_quantization_config := [asymCfg8] }
    input_metas := 0 }

/-- Conv → Relu graph for the C2 counterexample. -/
def c2Graph : BaseGraph :=
  { operations := [c2Conv, c2Relu]
    vars := [{ name := GName.user "x", is_parameter := false, value := none },
             { name := GName.user "v", is_parameter := false, value := none },
             { name := GName.user "w", is_parameter := false, value := none }]
    inputs := [GName.user "x"], outputs := [GName.user "w"]
    opsets := [], counter := 0 }

/-- A Relu like `c2Relu` whose input config is also asymmetric. -/
def c2GoodRelu : Operation :=
  { name := GName.user "relu", type := "Relu"
    inputs := [GName.user "v"], outputs := [GName.user "w"]
    attributes := []
    quant := some { input_quantization_config := [asymCfg8]
                    output_quantization_config := [asymCfg8] }
    input_metas := 0 }

/-- Conv → Relu graph where all the amended conditions hold. -/
def c2GoodGraph : BaseGraph :=
  { operations := [c2Conv, c2GoodRelu]
    vars := [{ name := GName.user "x", is_parameter := false, value := none },
             { name := GName.user "v", is_parameter := false, value := none },
             { name := GName.user "w", is_parameter := false, value := none }]
    inputs := [GName.user "x"], outputs := [GName.user "w"]
    opsets := [], counter := 0 }

/-- Number of operations of a given type in the registry. -/
def countOpsOfType (g : BaseGraph) (t : String) : ℕ :=
  g.operations.countP (fun o => decide (o.type = t))

/-- First consumer of the shared parameter in the C5 graph. -/
def c5Consumer1 : Operation :=
  { name := GName.user "n1", type := "Conv"
    inputs := [GName.user "w"], outputs := [GName.user "y1"]
    attributes := [], quant := none, input_metas := 0 }

/-- Second consumer of the shared parameter in the C5 graph. -/
def c5Consumer2 : Operation :=
  { name := GName.user "n2", type := "Conv"
    inputs := [GName.user "w"], outputs := [GName.user "y2"]
    attributes := [], quant := none, input_metas := 0 }

/-- A parameter variable consumed by two operations. -/
def c5Graph : BaseGraph :=
  { operations := [c5Consumer1, c5Consumer2]
    vars := [{ name := GName.user "w", is_parameter := true
               value := some { dtype := DType.fp32, data := [] } }]
    inputs := [], outputs := [], opsets := [], counter := 0 }

/-- A parameter variable with exactly one consumer. -/
def c6Graph : BaseGraph :=
  { operations := [c5Consumer1]
    vars := [{ name := GName.user "w", is_parameter := true
               value := some { dtype := DType.fp32, data := [1] } }]
    inputs := [], outputs := [], opsets := [], counter := 0 }

/-- Exportable asymmetric 8-bit linear config with scale `[1]`. -/
def c3CfgIn : TensorQuantizationConfig :=
  { asymCfg8 with scale := [1] }

/-- Exportable asymmetric 8-bit linear config with scale `[2]`. -/
def c3CfgOut : TensorQuantizationConfig :=
  { asymCfg8 with scale := [2] }

/-- A quantized Relu fed by `c2Conv`, carrying the given input/output
configs. -/
def c3ReluF (icfg ocfg : TensorQuantizationConfig) : Operation :=
  { name := GName.user "relu", type := "Relu"
    inputs := [GName.user "v"], outputs := [GName.user "w"]
    attributes := []
    quant := some { input_quantization_config := [icfg]
                    output_quantization_config := [ocfg] }
    input_metas := 0 }

/-- Conv → Relu graph over symbolic input/output configs, with the
Relu's output `w` declared as the graph output. -/
def c3GraphF (icfg ocfg : TensorQuantizationConfig) : BaseGraph :=
  { operations := [c2Conv, c3ReluF icfg ocfg]
    vars := [{ name := GName.user "x", is_parameter := false, value := none },
             { name := GName.user "v", is_parameter := false, value := none },
             { name := GName.user "w", is_parameter := false, value := none }]
    inputs := [GName.user "x"], outputs := [GName.user "w"]
    opsets := [], counter := 0 }

/-- The zero-point constant the linear insertion materializes for a
config: offsets rounded and cast to the inferred offset dtype. -/
def zpTensor (ocfg : TensorQuantizationConfig) : TensorVal :=
  { dtype := (infer_qtype ocfg).1
    data := ocfg.offset.map
      (fun q => ((castInt (infer_qtype ocfg).1 (roundHE q) : ℤ) : ℚ)) }

/-- The graph `remove_activation_ops` produces from `c3GraphF`: the Relu
spliced out, the graph output rebound to the upstream variable `v`, and
a quantize/dequantize pair inserted on the former input edge, both
carrying the *output* config's scale/offset constants. -/
def c3ResultF (ocfg : TensorQuantizationConfig) : BaseGraph :=
  { operations :=
      [c2Conv,
       { name := GName.gen 2, type := "DequantizeLinear"
         inputs := [GName.gen 7, GName.gen 0, GName.gen 1]
         outputs := [GName.gen 3]
         attributes := [("axis", AttrValue.int 0)]
         quant := none, input_metas := 0 },
       { name := GName.gen 6, type := "QuantizeLinear"
         inputs := [GName.user "v", GName.gen 4, GName.gen 5]
         outputs := [GName.gen 7]
         attributes := [("axis", AttrValue.int 0)]
         quant := none, input_metas := 0 }]
    vars :=
      [{ name := GName.user "x", is_parameter := false, value := none },
       { name := GName.user "v", is_parameter := false, value := none },
       { name := GName.gen 0, is_parameter := true
         value := some { dtype := DType.fp32, data := ocfg.scale } },
       { name := GName.gen 1, is_parameter := true, value := some (zpTensor ocfg) },
       { name := GName.gen 3, is_parameter := false, value := none },
       { name := GName.gen 4, is_parameter := true
         value := some { dtype := DType.fp32, data := ocfg.scale } },
       { name := GName.gen 5, is_parameter := true, value := some (zpTensor ocfg) },
       { name := GName.gen 7, is_parameter := false, value := none }]
    inputs := [GName.user "x"], outputs := [GName.user "v"]
    opsets := [], counter := 8 }

/-- The dequantize node inserted by the elision on `c3GraphF` (after
the quantize insertion rebound its first input). -/
def c3DqOp : Operation :=
  { name := GName.gen 2, type := "DequantizeLinear"
    inputs := [GName.gen 7, GName.gen 0, GName.gen 1]
    outputs := [GName.gen 3]
    attributes := [("axis", AttrValue.int 0)]
    quant := none, input_metas := 0 }

/-- The quantize node inserted by the elision on `c3GraphF`. -/
def c3QtOp : Operation :=
  { name := GName.gen 6, type := "QuantizeLinear"
    inputs := [GName.user "v", GName.gen 4, GName.gen 5]
    outputs := [GName.gen 7]
    attributes := [("axis", AttrValue.int 0)]
    quant := none, input_metas := 0 }

/-- Dequantize head of the C4 chain, producing `m` from `a`. -/
def c4Dq : Operation :=
  { name := GName.user "dq", type := "DequantizeLinear"
    inputs := [GName.user "a", GName.user "s1", GName.user "z1"]
    outputs := [GName.user "m"]
    attributes := [], quant := none, input_metas := 0 }

/-- Quantize node of the C4 chain, fed by `c4Dq`. -/
def c4Qt : Operation :=
  { name := GName.user "qt", type := "QuantizeLinear"
    inputs := [GName.user "m", GName.user "s2", GName.user "z2"]
    outputs := [GName.user "q"]
    attributes := [], quant := none, input_metas := 0 }

/-- Single downstream consumer of `c4Qt` (another dequantize). -/
def c4C : Operation :=
  { name := GName.user "c", type := "DequantizeLinear"
    inputs := [GName.user "q", GName.user "s3", GName.user "z3"]
    outputs := [GName.user "r"]
    attributes := [], quant := none, input_metas := 0 }

/-- Final consumer behind the chain (observes the splice). -/
def c4F : Operation :=
  { name := GName.user "f", type := "Conv"
    inputs := [GName.user "r"], outputs := [GName.user "o"]
    attributes := [], quant := none, input_metas := 0 }

/-- A second consumer of the quantize output, breaking the structural
single-consumer assumption. -/
def c4C2 : Operation :=
  { name := GName.user "c2", type := "DequantizeLinear"
    inputs := [GName.user "q", GName.user "s3", GName.user "z3"]
    outputs := [GName.user "r2"]
    attributes := [], quant := none, input_metas := 0 }

/-- Variable registry for the C4 chain; scale/zero-point constants of
the dequantize and quantize nodes carry the given tensors. -/
def c4Vars (sv1 zv1 sv2 zv2 : List ℚ) : List Variable :=
  [{ name := GName.user "a", is_parameter := false, value := none },
   { name := GName.user "m", is_parameter := false, value := none },
   { name := GName.user "q", is_parameter := false, value := none },
   { name := GName.user "r", is_parameter := false, value := none },
   { name := GName.user "o", is_parameter := false, value := none },
   { name := GName.user "s1", is_parameter := true
     value := some { dtype := DType.fp32, data := sv1 } },
   { name := GName.user "z1", is_parameter := true
     value := some { dtype := DType.uint8, data := zv1 } },
   { name := GName.user "s2", is_parameter := true
     value := some { dtype := DType.fp32, data := sv2 } },
   { name := GName.user "z2", is_parameter := true
     value := some { dtype := DType.uint8, data := zv2 } },
   { name := GName.user "s3", is_parameter := true
     value := some { dtype := DType.fp32, data := [] } },
   { name := GName.user "z3", is_parameter := true
     value := some { dtype := DType.uint8, data := [] } }]

/-- Dequantize → Quantize → Dequantize chain with a single consumer. -/
def c4GraphF (sv1 zv1 sv2 zv2 : List ℚ) : BaseGraph :=
  { operations := [c4Dq, c4Qt, c4C, c4F]
    vars := c4Vars sv1 zv1 sv2 zv2
    inputs := [GName.user "a"], outputs := [GName.user "o"]
    opsets := [], counter := 0 }

/-- Collapsed form of `c4GraphF`: the quantize node and its consumer
removed, the chain input `m` spliced directly to the final consumer. -/
def c4Result (sv1 zv1 sv2 zv2 : List ℚ) : BaseGraph :=
  { operations :=
      [c4Dq,
       { name := GName.user "f", type := "Conv"
         inputs := [GName.user "m"], outputs := [GName.user "o"]
         attributes := [], quant := none, input_metas := 0 }]
    vars :=
      [{ name := GName.user "a", is_parameter := false, value := none },
       { name := GName.user "m", is_parameter := false, value := none },
       { name := GName.user "o", is_parameter := false, value := none },
       { name := GName.user "s1", is_parameter := true
         value := some { dtype := DType.fp32, data := sv1 } },
       { name := GName.user "z1", is_parameter := true
         value := some { dtype := DType.uint8, data := zv1 } },
       { name := GName.user "s2", is_parameter := true
         value := some { dtype := DType.fp32, data := sv2 } },
       { name := GName.user "z2", is_parameter := true
         value := some { dtype := DType.uint8, data := zv2 } },
       { name := GName.user "s3", is_parameter := true
         value := some { dtype := DType.fp32, data := [] } },
       { name := GName.user "z3", is_parameter := true
         value := some { dtype := DType.uint8, data := [] } }]
    inputs := [GName.user "a"], outputs := [GName.user "o"]
    opsets := [], counter := 0 }

/-- The C4 chain with a second consumer of the quantize output. -/
def c4FanGraphF (sv1 zv1 sv2 zv2 : List ℚ) : BaseGraph :=
  { operations := [c4Dq, c4Qt, c4C, c4F, c4C2]
    vars := c4Vars sv1 zv1 sv2 zv2 ++
      [{ name := GName.user "r2", is_parameter := false, value := none }]
    inputs := [GName.user "a"], outputs := [GName.user "o"]
    opsets := [], counter := 0 }

/-- The C4 chain with the head dequantize absent: the quantize node has
no upstream producer. -/
def c4NoUpGraphF (sv1 zv1 sv2 zv2 : List ℚ) : BaseGraph :=
  { operations := [c4Qt, c4C, c4F]
    vars := c4Vars sv1 zv1 sv2 zv2
    inputs := [GName.user "m"], outputs := [GName.user "o"]
    opsets := [], counter := 0 }

/-- C1: the exportability check is a pure predicate: it accepts exactly
when the general can-export flag is set, the visibility is not INTERNAL,
and, when the config is 8-bit linear, the `[quant_min, quant_max]` range
lies in `[0,255]` (asymmetric) resp. `[-128,127]` (symmetric); any other
bit-width/policy combination bypasses the range check, and a failed
range check yields `false` rather than an error (the function is total
and Boolean-valued). -/
theorem C1_exportable_check (c : TensorQuantizationConfig) (v : Variable) :
    TQC_Exportable_Check c v = true ↔
      (c.can_export_flag = true ∧
       c.visibility ≠ QuantizationVisibility.INTERNAL ∧
       (c.num_of_bits = 8 ∧ c.policy.linear = true →
         if c.policy.symmetric then
           -128 ≤ c.quant_min ∧ c.quant_max ≤ 127
         else 0 ≤ c.quant_min ∧ c.quant_max ≤ 255)) := by
  unfold TQC_Exportable_Check
  rcases c with ⟨pol, bits, sc, off, qmin, qmax, st, vis, ax, eb, mb, flag⟩
  rcases pol with ⟨lin, sym, pc⟩
  cases flag <;> cases sym <;> cases lin <;> cases vis <;>
    simp_all [GE.ge] <;> by_cases hb : bits = 8 <;>
    simp_all <;> omega

/-- Witness for C1: a concrete 8-bit asymmetric linear config with range
`[0, 255]`, exportable flag set and EXPORTABLE visibility passes the
check. -/
theorem C1_exportable_check_witness :
    TQC_Exportable_Check
      { policy := { linear := true, symmetric := false, perChannel := false }
        num_of_bits := 8, scale := [1/10], offset := [0]
        quant_min := 0, quant_max := 255
        state := QuantizationStates.ACTIVATED
        visibility := QuantizationVisibility.EXPORTABLE
        channel_axis := 0, exponent_bits := 0, mantissa_bits := 0
        can_export_flag := true }
      { name := GName.user "x", is_parameter := false, value := none } = true :=
  (C1_exportable_check _ _).mpr (by refine ⟨rfl, by decide, ?_⟩; intro _; decide)

/-- C9: `adapt_scale` never raises and never rejects: every result lies
in the window `[FLT_EPSILON, 1/FLT_EPSILON]`; inputs already inside the
window are returned unchanged, inputs below it become `FLT_EPSILON`,
inputs above it become `1/FLT_EPSILON`. -/
theorem C9_adapt_scale (op : String) (s : ℚ) :
    (FLT_EPSILON ≤ adapt_scale op s ∧ adapt_scale op s ≤ 1 / FLT_EPSILON) ∧
    (FLT_EPSILON ≤ s ∧ s ≤ 1 / FLT_EPSILON → adapt_scale op s = s) ∧
    (s < FLT_EPSILON → adapt_scale op s = FLT_EPSILON) ∧
    (1 / FLT_EPSILON < s → adapt_scale op s = 1 / FLT_EPSILON) := by
  have heps : (0:ℚ) < FLT_EPSILON := by norm_num [FLT_EPSILON]
  have hwin : FLT_EPSILON ≤ 1 / FLT_EPSILON := by norm_num [FLT_EPSILON]
  unfold adapt_scale
  constructor
  · split
    · exact ⟨le_refl _, hwin⟩
    · split
      · exact ⟨hwin, le_refl _⟩
      · constructor
        · linarith [not_lt.mp (by assumption : ¬ s < FLT_EPSILON)]
        · linarith [not_lt.mp (by assumption : ¬ s > 1 / FLT_EPSILON)]
  · refine ⟨?_, ?_, ?_⟩
    · rintro ⟨h1, h2⟩
      rw [if_neg (by linarith), if_neg (not_lt.mpr h2)]
    · intro h; rw [if_pos h]
    · intro h
      rw [if_neg (by linarith), if_pos h]

/-- Witness for C9: at scale `1` (inside the window) the value is kept;
at scale `0` (below) it is clamped to `FLT_EPSILON`. -/
theorem C9_adapt_scale_witness :
    adapt_scale "conv1" 1 = 1 ∧ adapt_scale "conv1" 0 = FLT_EPSILON := by
  refine ⟨(C9_adapt_scale "conv1" 1).2.1 ⟨?_, ?_⟩,
          (C9_adapt_scale "conv1" 0).2.2.1 ?_⟩ <;> norm_num [FLT_EPSILON]

/-- C10: the public export entry point always prepares the graph with
`prepare_graph`'s default flags (activation QDQ insertion, parameter
processing, activation removal and integer folding of parameters all
enabled); the caller-supplied `quantized_param` and `remove_activation`
arguments (and the other two flags) have no effect on the prepared
graph. -/
theorem C10_export_ignores_flags (g : BaseGraph)
    (e1 q1 r1 s1 e2 q2 r2 s2 : Bool) :
    exportPrepared g e1 q1 r1 s1 = prepare_graph g true true true true ∧
    exportPrepared g e1 q1 r1 s1 = exportPrepared g e2 q2 r2 s2 :=
  ⟨rfl, rfl⟩

/-- C8 counterexample: a graph already declaring `ai.onnx` at version 15
does *not* keep that higher version — the emitted declarations drop it
and declare `ai.onnx` at 13, i.e. the exporter does downgrade the
default domain. -/
theorem C8_counterexample :
    ("ai.onnx", (15 : ℤ)) ∈ c8Graph.opsets ∧ (13 : ℤ) < 15 ∧
    ("ai.onnx", (15 : ℤ)) ∉ exportOpsets c8Graph ∧
    ("ai.onnx", (13 : ℤ)) ∈ exportOpsets c8Graph := by
  decide

/-- C8 (amended): the emitted opset declarations always contain
`ai.onnx` at exactly version 13 — pre-existing declarations for
`ai.onnx` or for the empty domain are discarded rather than merged, so
a higher pre-existing `ai.onnx` version is downgraded — while
declarations for any other domain are preserved with their original
versions. -/
theorem C8_amended_opsets (g : BaseGraph) :
    (("ai.onnx", (13 : ℤ)) ∈ exportOpsets g) ∧
    (∀ v : ℤ, ("ai.onnx", v) ∈ exportOpsets g → v = 13) ∧
    (∀ v : ℤ, ("", v) ∉ exportOpsets g) ∧
    (∀ (d : String) (v : ℤ), d ≠ "ai.onnx" → d ≠ "" →
      ((d, v) ∈ exportOpsets g ↔ (d, v) ∈ g.opsets)) := by
  refine ⟨?_, ?_, ?_, ?_⟩
  · simp [exportOpsets, required_opsets]
  · intro v hv
    simp [exportOpsets, required_opsets, List.mem_filter] at hv
    exact hv
  · intro v hv
    simp [exportOpsets, required_opsets, List.mem_filter] at hv
  · intro d v hd he
    simp [exportOpsets, required_opsets, List.mem_filter, hd, he]

/-- Witness for C8's amended theorem: a custom-domain declaration
survives with its version, and `ai.onnx` is emitted at 13. -/
theorem C8_amended_opsets_witness :
    ("com.custom", (5 : ℤ)) ∈ exportOpsets
      { operations := [], vars := [], inputs := [], outputs := []
        opsets := [("com.custom", 5)], counter := 0 } :=
  ((C8_amended_opsets _).2.2.2 "com.custom" 5 (by decide) (by decide)).mpr
    (by decide)

/-- After popping an attribute, looking it up again finds nothing. -/
theorem attrFind_attrRemove (attrs : List (String × AttrValue)) (k : String) :
    attrFind (attrRemove attrs k) k = none := by
  induction attrs with
  | nil => rfl
  | cons a t ih =>
    by_cases h : a.1 = k
    · simp only [attrRemove, List.filter_cons, decide_not, h]
      simpa [attrRemove] using ih
    · simpa [attrRemove, attrFind, List.find?, h] using ih

/-- The opset upgrade walk is a fixed point on its own output: every
transformed operation has lost its migrated attribute and every other
operation never had one, so a second walk changes nothing (for any
registry/counter state it is given). -/
theorem upgradeOps_fixed :
    ∀ (ops : List Operation) (vs : List Variable) (c : ℕ)
      (vs' : List Variable) (c' : ℕ),
      upgradeOps (upgradeOps ops vs c).1 vs' c' =
        ((upgradeOps ops vs c).1, vs', c') := by
  intro ops
  induction ops with
  | nil => intro vs c vs' c'; rfl
  | cons op rest ih =>
    intro vs c vs' c'
    by_cases h1 : op.type = "ReduceSum" ∨ op.type = "Squeeze" ∨ op.type = "Unsqueeze"
    · rcases hA : attrFind op.attributes "axes" with _ | a
      · simp only [upgradeOps, if_pos h1, hA]
        rw [ih]
      · simp only [upgradeOps, if_pos h1, hA]
        have h1b : (({ op with
            attributes := attrRemove op.attributes "axes"
            inputs := op.inputs ++ [GName.gen c]
            input_metas := op.input_metas + 1 } : Operation).type = "ReduceSum" ∨
            ({ op with
            attributes := attrRemove op.attributes "axes"
            inputs := op.inputs ++ [GName.gen c]
            input_metas := op.input_metas + 1 } : Operation).type = "Squeeze" ∨
            ({ op with
            attributes := attrRemove op.attributes "axes"
            inputs := op.inputs ++ [GName.gen c]
            input_metas := op.input_metas + 1 } : Operation).type = "Unsqueeze") := h1
        simp only [upgradeOps, if_pos h1b, attrFind_attrRemove]
        rw [ih]
    · by_cases h2 : op.type = "Split"
      · rcases hA : attrFind op.attributes "split" with _ | a
        · simp only [upgradeOps, if_neg h1, if_pos h2, hA]
          rw [ih]
        · simp only [upgradeOps, if_neg h1, if_pos h2, hA]
          have h1b : ¬ (({ op with
              attributes := attrRemove op.attributes "split"
              inputs := op.inputs ++ [GName.gen c]
              input_metas := op.input_metas + 1 } : Operation).type = "ReduceSum" ∨
              ({ op with
              attributes := attrRemove op.attributes "split"
              inputs := op.inputs ++ [GName.gen c]
              input_metas := op.input_metas + 1 } : Operation).type = "Squeeze" ∨
              ({ op with
              attributes := attrRemove op.attributes "split"
              inputs := op.inputs ++ [GName.gen c]
              input_metas := op.input_metas + 1 } : Operation).type = "Unsqueeze") := h1
          simp only [upgradeOps, if_neg h1b, if_pos h2, attrFind_attrRemove]
          rw [ih]
      · simp only [upgradeOps, if_neg h1, if_neg h2]
        rw [ih]

/-- C7: the opset adapter is idempotent: running
`convert_operation_from_opset11_to_opset13` twice yields the same graph
as running it once — the first run strips every literal `axes`/`split`
attribute of a ReduceSum/Squeeze/Unsqueeze/Split into a fresh rank-1
integer constant input, and an operation whose attribute is already
absent is left untouched. -/
theorem C7_opset_adapter_idempotent (g : BaseGraph) :
    convert_operation_from_opset11_to_opset13
        (convert_operation_from_opset11_to_opset13 g) =
      convert_operation_from_opset11_to_opset13 g := by
  simp only [convert_operation_from_opset11_to_opset13]
  rw [upgradeOps_fixed]

/-- Lists zipped from the same two lists have a minimum exactly when
they have a maximum (they share their length). -/
theorem zipWith_min_max_isSome (f h : ℚ → ℚ → ℚ) (l1 l2 : List ℚ) :
    (List.zipWith f l1 l2).max?.isSome = (List.zipWith h l1 l2).min?.isSome := by
  cases l1 <;> cases l2 <;> rfl

/-- The candidate-collection phase, characterized for Relu nodes: a
quantable Relu is collected exactly when its first output config is
asymmetric and the minimum of its realizable output range is
nonnegative. -/
theorem candidateCheck_relu_iff (g : BaseGraph) (op : Operation)
    (qc : OpQuantConfig) (ocfg : TensorQuantizationConfig)
    (hq : op.quant = some qc)
    (ho : qc.output_quantization_config.head? = some ocfg)
    (ht : op.type = "Relu") :
    candidateCheck g op = true ↔
      (ocfg.policy.symmetric = false ∧
       ∃ m : ℚ,
         (List.zipWith (fun s z => s * ((ocfg.quant_min : ℚ) - z))
           ocfg.scale ocfg.offset).min? = some m ∧ 0 ≤ m) := by
  unfold candidateCheck
  rw [hq]
  by_cases hsym : ocfg.policy.symmetric
  · simp [ho, ht, hsym]
  · simp only [Bool.not_eq_true] at hsym
    cases hmin : (List.zipWith (fun s z => s * ((ocfg.quant_min : ℚ) - z))
        ocfg.scale ocfg.offset).min? with
    | none =>
      cases hmax : (List.zipWith (fun s z => s * ((ocfg.quant_max : ℚ) - z))
          ocfg.scale ocfg.offset).max? with
      | none => simp [ho, ht, hsym, hmin, hmax]
      | some M =>
        have hiso := zipWith_min_max_isSome
          (fun s z => s * ((ocfg.quant_max : ℚ) - z))
          (fun s z => s * ((ocfg.quant_min : ℚ) - z)) ocfg.scale ocfg.offset
        rw [hmin, hmax] at hiso
        simp at hiso
    | some m =>
      cases hmax : (List.zipWith (fun s z => s * ((ocfg.quant_max : ℚ) - z))
          ocfg.scale ocfg.offset).max? with
      | none =>
        have hiso := zipWith_min_max_isSome
          (fun s z => s * ((ocfg.quant_max : ℚ) - z))
          (fun s z => s * ((ocfg.quant_min : ℚ) - z)) ocfg.scale ocfg.offset
        rw [hmin, hmax] at hiso
        simp at hiso
      | some M => simp [ho, ht, hsym, hmin, hmax]

/-- The elision guards of the second phase, characterized for
single-input nodes: they pass exactly when the node has exactly one
upstream producer, that producer is quantable with exactly one
downstream consumer, and the node's first *input* config is
asymmetric. -/
theorem elisionGuard_iff (g : BaseGraph) (op : Operation)
    (qc : OpQuantConfig) (icfg : TensorQuantizationConfig)
    (hq : op.quant = some qc)
    (hi : qc.input_quantization_config.head? = some icfg)
    (hinp : op.inputs.length = 1) :
    elisionGuard g op = true ↔
      ((∃ up : Operation, g.get_upstream_operations op = [up] ∧
         up.quant.isSome = true ∧
         (g.get_downstream_operations up).length = 1) ∧
       icfg.policy.symmetric = false) := by
  obtain ⟨i, hiv⟩ := List.length_eq_one.mp hinp
  unfold elisionGuard BaseGraph.get_upstream_operations
  rw [hq, hiv]
  cases hp : g.producerOf i with
  | none => simp [List.filterMap_cons, List.filterMap_nil, hp, hi]
  | some u =>
    by_cases hu : u.quant.isNone
    · have hus : u.quant.isSome = false := by
        cases h2 : u.quant <;> simp_all
      simp [List.filterMap_cons, List.filterMap_nil, hp, hu, hus, hi]
    · by_cases hd : (g.get_downstream_operations u).length = 1
      · have hus : u.quant.isSome = true := by
          cases h2 : u.quant <;> simp_all
        by_cases hs : icfg.policy.symmetric <;>
          simp [List.filterMap_cons, List.filterMap_nil, hp, hu, hus, hd, hi, hs]
      · simp [List.filterMap_cons, List.filterMap_nil, hp, hu, hd, hi]

/-- C2 (amended): dead-activation elision selects a quantized Relu for
removal exactly when its output quantization config is asymmetric, the
realizable output range minimum `min(scale*(quant_min-offset))` is
≥ 0, the node has exactly one upstream producer, that producer is
itself quantized with exactly one consumer, *and additionally* the
node's first input quantization config is asymmetric as well; in
particular a Relu whose output config is symmetric is never removed. -/
theorem C2_amended_relu_elision (g : BaseGraph) (op : Operation)
    (qc : OpQuantConfig) (ocfg icfg : TensorQuantizationConfig)
    (hq : op.quant = some qc)
    (ho : qc.output_quantization_config.head? = some ocfg)
    (hi : qc.input_quantization_config.head? = some icfg)
    (ht : op.type = "Relu")
    (hinp : op.inputs.length = 1) :
    (candidateCheck g op && elisionGuard g op) = true ↔
      (ocfg.policy.symmetric = false ∧
       (∃ m : ℚ,
         (List.zipWith (fun s z => s * ((ocfg.quant_min : ℚ) - z))
           ocfg.scale ocfg.offset).min? = some m ∧ 0 ≤ m) ∧
       (∃ up : Operation, g.get_upstream_operations op = [up] ∧
          up.quant.isSome = true ∧
          (g.get_downstream_operations up).length = 1) ∧
       icfg.policy.symmetric = false) := by
  rw [Bool.and_eq_true, candidateCheck_relu_iff g op qc ocfg hq ho ht,
      elisionGuard_iff g op qc icfg hq hi hinp]
  tauto

/-- C2 counterexample: in the concrete Conv → Relu graph `c2Graph`, the
Relu satisfies every condition of the claim — quantized, asymmetric
output config, realizable range minimum `0 ≥ 0`, exactly one upstream
producer which is quantized and has exactly one consumer — yet
`remove_activation_ops` removes nothing, because the Relu's *input*
config is symmetric (a condition the claim omits). -/
theorem C2_counterexample :
    ((c2Relu ∈ c2Graph.operations) ∧ c2Relu.type = "Relu" ∧
     c2Relu.quant.isSome = true ∧
     ((c2Relu.quant.getD
        { input_quantization_config := []
          output_quantization_config := [] }).output_quantization_config.head?
       = some asymCfg8) ∧
     asymCfg8.policy.symmetric = false ∧
     ((List.zipWith (fun s z => s * ((asymCfg8.quant_min : ℚ) - z))
        asymCfg8.scale asymCfg8.offset).min? = some 0) ∧
     c2Graph.get_upstream_operations c2Relu = [c2Conv] ∧
     c2Conv.quant.isSome = true ∧
     (c2Graph.get_downstream_operations c2Conv).length = 1) ∧
    remove_activation_ops c2Graph = c2Graph ∧
    c2Relu ∈ (remove_activation_ops c2Graph).operations := by
  have h1 : candidateCheck c2Graph c2Conv = false := by
    norm_num [candidateCheck, c2Graph, c2Conv]
  have h2 : candidateCheck c2Graph c2Relu = true := by
    norm_num [candidateCheck, c2Graph, c2Relu, asymCfg8, List.min?]
  have h3 : elisionGuard c2Graph c2Relu = false := by
    norm_num [elisionGuard, c2Graph, c2Relu, c2Conv, symCfg8, asymCfg8,
      BaseGraph.get_upstream_operations, BaseGraph.producerOf,
      List.filterMap_cons, List.find?]
  have h4 : BaseGraph.lookupOp c2Graph (GName.user "relu") = some c2Relu := by
    simp [BaseGraph.lookupOp, c2Graph, List.find?, c2Conv, c2Relu]
  have h5 : remove_activation_ops c2Graph = c2Graph := by
    unfold remove_activation_ops
    rw [show c2Graph.operations = [c2Conv, c2Relu] from rfl]
    rw [List.filter_cons, List.filter_cons]
    rw [h1, h2]
    simp only [Bool.false_eq_true, if_false, if_true, List.filter_nil,
      List.map_cons, List.map_nil, List.foldl_cons, List.foldl_nil]
    rw [show (c2Relu.name) = GName.user "relu" from rfl]
    rw [h4]
    simp [h3]
  refine ⟨⟨?_, rfl, rfl, rfl, rfl, ?_, ?_, rfl, ?_⟩, h5, ?_⟩
  · simp [c2Graph]
  · norm_num [asymCfg8, List.min?]
  · simp [c2Graph, c2Relu, c2Conv, BaseGraph.get_upstream_operations,
      BaseGraph.producerOf, List.filterMap_cons, List.find?]
  · simp [c2Graph, c2Conv, c2Relu, BaseGraph.get_downstream_operations,
      BaseGraph.destOps, List.count_cons, List.count_nil]
  · rw [h5]
    simp [c2Graph]

/-- Witness for the amended C2: with the input config asymmetric too,
the Relu is selected for elision. -/
theorem C2_amended_relu_elision_witness :
    (candidateCheck c2GoodGraph c2GoodRelu &&
      elisionGuard c2GoodGraph c2GoodRelu) = true :=
  (C2_amended_relu_elision c2GoodGraph c2GoodRelu
      { input_quantization_config := [asymCfg8]
        output_quantization_config := [asymCfg8] }
      asymCfg8 asymCfg8 rfl rfl rfl rfl (by decide)).mpr
    ⟨rfl, ⟨0, by norm_num [asymCfg8, List.min?], le_refl 0⟩,
     ⟨c2Conv,
      by simp [c2GoodGraph, c2GoodRelu, c2Conv,
        BaseGraph.get_upstream_operations, BaseGraph.producerOf,
        List.filterMap_cons, List.find?],
      rfl,
      by simp [c2GoodGraph, c2GoodRelu, c2Conv,
        BaseGraph.get_downstream_operations, BaseGraph.destOps,
        List.count_cons, List.count_nil]⟩,
     rfl⟩

/-- C5: for every exportable parameter variable reaching the
node-insertion engine with parameter processing enabled, more than one
consuming operation makes the engine fail with the structural
multi-consumer error naming the variable, never proceeding silently;
with exactly one consumer that error is impossible. -/
theorem C5_param_unique_owner (opName : GName) (pa pp qpi : Bool)
    (g : BaseGraph) (isInput : Bool) (idx : ℕ)
    (config : TensorQuantizationConfig) (varName : GName) (v : Variable)
    (hv : g.lookupVar varName = some v)
    (hp : v.is_parameter = true) (hpp : pp = true)
    (hexp : TQC_Exportable_Check config v = true) :
    (1 < (g.destOps varName).length →
      processPair opName pa pp qpi g (isInput, idx, config, varName) =
        Except.error (ExportErr.multiConsumer varName)) ∧
    ((g.destOps varName).length = 1 →
      ∀ e : GName,
        processPair opName pa pp qpi g (isInput, idx, config, varName) ≠
          Except.error (ExportErr.multiConsumer e)) := by
  constructor
  · intro hlen
    simp only [processPair, hv, hexp, hp, hpp]
    rw [if_neg (by simp), if_pos (by simp)]
    rw [if_pos (by omega)]
  · intro hlen e
    simp only [processPair, hv, hexp, hp, hpp]
    rw [if_neg (by simp), if_pos (by simp), if_neg (by omega)]
    by_cases hq : qpi <;>
      by_cases hl : (normalizeState config).policy.linear <;>
        simp [hq, hl]

/-- Witness for C5: in the concrete two-consumer graph the engine
raises the multi-consumer error for the parameter `w`; in the
single-consumer graph it does not. -/
theorem C5_param_unique_owner_witness :
    (processPair (GName.user "op") true true true c5Graph
        (true, 0, asymCfg8, GName.user "w") =
      Except.error (ExportErr.multiConsumer (GName.user "w"))) ∧
    (∀ e : GName,
      processPair (GName.user "op") true true true c6Graph
          (true, 0, asymCfg8, GName.user "w") ≠
        Except.error (ExportErr.multiConsumer e)) := by
  constructor
  · exact (C5_param_unique_owner (GName.user "op") true true true c5Graph
      true 0 asymCfg8 (GName.user "w")
      { name := GName.user "w", is_parameter := true
        value := some { dtype := DType.fp32, data := [] } }
      (by decide) rfl rfl (by decide)).1 (by decide)
  · exact (C5_param_unique_owner (GName.user "op") true true true c6Graph
      true 0 asymCfg8 (GName.user "w")
      { name := GName.user "w", is_parameter := true
        value := some { dtype := DType.fp32, data := [1] } }
      (by decide) rfl rfl (by decide)).2 (by decide)

/-- State normalization never changes the policy. -/
theorem normalizeState_policy (c : TensorQuantizationConfig) :
    (normalizeState c).policy = c.policy := by
  unfold normalizeState
  split_ifs <;> rfl

/-- State normalization never changes the bit-width. -/
theorem normalizeState_bits (c : TensorQuantizationConfig) :
    (normalizeState c).num_of_bits = c.num_of_bits := by
  unfold normalizeState
  split_ifs <;> rfl

/-- Counting operations of a type is invariant under type-preserving
rewiring of the registry. -/
theorem countP_type_map (f : Operation → Operation)
    (hf : ∀ o, (f o).type = o.type) (l : List Operation) (t : String) :
    (l.map f).countP (fun o => decide (o.type = t)) =
      l.countP (fun o => decide (o.type = t)) := by
  rw [List.countP_map]
  apply List.countP_congr
  intro o _
  simp [Function.comp, hf]

/-- Inserting a node via `insertCore` adds exactly one operation, of
the given type, and rewires without changing any type. -/
theorem countOps_insertCore (g : BaseGraph) (ty : String)
    (attrs : List (String × AttrValue)) (sVal zVal : TensorVal)
    (vn : GName) (related : Option GName) (t : String) :
    countOpsOfType (insertCore g ty attrs sVal zVal vn related).1 t =
      countOpsOfType g t + (if ty = t then 1 else 0) := by
  unfold insertCore countOpsOfType
  simp only [List.countP_append]
  split
  · rw [countP_type_map]
    · simp [List.countP_cons, List.countP_nil]
    · intro o
      cases related with
      | none => rfl
      | some r => by_cases h : o.name = r <;> simp [h, Operation.replaceInput]
  · rw [countP_type_map]
    · simp [List.countP_cons, List.countP_nil]
    · intro o
      rfl

/-- Inserting a dequantize node on a linear config adds exactly one
DequantizeLinear operation. -/
theorem countOps_insert_dequant_linear (g : BaseGraph) (vn : GName)
    (cfg : TensorQuantizationConfig) (r : GName)
    (hlin : cfg.policy.linear = true) (t : String) :
    countOpsOfType (insert_dequant_on_variable g vn cfg r).1 t =
      countOpsOfType g t + (if "DequantizeLinear" = t then 1 else 0) := by
  unfold insert_dequant_on_variable
  rw [if_pos hlin]
  exact countOps_insertCore g "DequantizeLinear" _ _ _ vn (some r) t

/-- Inserting a quantize node on a linear config adds exactly one
QuantizeLinear operation. -/
theorem countOps_insert_quant_linear (g : BaseGraph) (vn : GName)
    (cfg : TensorQuantizationConfig) (r : Option GName)
    (hlin : cfg.policy.linear = true) (t : String) :
    countOpsOfType (insert_quant_on_variable g vn cfg r).1 t =
      countOpsOfType g t + (if "QuantizeLinear" = t then 1 else 0) := by
  unfold insert_quant_on_variable
  rw [if_pos hlin]
  exact countOps_insertCore g "QuantizeLinear" _ _ _ vn r t

/-- Writing a config back into an operation does not change any
operation type. -/
theorem countOps_writeBackCfg (g : BaseGraph) (opName : GName)
    (isInput : Bool) (idx : ℕ) (cfg : TensorQuantizationConfig)
    (t : String) :
    countOpsOfType (writeBackCfg g opName isInput idx cfg) t =
      countOpsOfType g t := by
  unfold writeBackCfg countOpsOfType
  rw [countP_type_map]
  intro o
  by_cases h : o.name = opName <;> simp [h] <;> cases o.quant <;> simp <;>
    split <;> rfl

/-- The variable registry after `insertCore`: the three fresh variables
are appended behind the existing ones. -/
theorem vars_insertCore (g : BaseGraph) (ty : String)
    (attrs : List (String × AttrValue)) (sVal zVal : TensorVal)
    (vn : GName) (related : Option GName) :
    (insertCore g ty attrs sVal zVal vn related).1.vars =
      g.vars ++
        [{ name := GName.gen g.counter, is_parameter := true
           value := some sVal },
         { name := GName.gen (g.counter + 1), is_parameter := true
           value := some zVal },
         { name := GName.gen (g.counter + 3), is_parameter := false
           value := none }] := rfl

/-- In-place value rewriting commutes with name lookup. -/
theorem find?_updList (l : List Variable) (n : GName)
    (f : TensorVal → TensorVal) :
    (l.map (fun v => if v.name = n then { v with value := v.value.map f }
      else v)).find? (fun v => decide (v.name = n)) =
      (l.find? (fun v => decide (v.name = n))).map
        (fun v => { v with value := v.value.map f }) := by
  induction l with
  | nil => rfl
  | cons a tl ih =>
    by_cases h : a.name = n
    · simp [List.find?_cons, h]
    · simp [List.find?_cons, h, ih]

/-- C6: with integer folding requested (`quant_param_to_int = true`),
an exportable single-consumer parameter with a linear-policy config
gets exactly one inserted DequantizeLinear node and no QuantizeLinear
node, and the constant's stored value is rewritten in place to its
quantized integer representation, whose dtype is int32 above 16 bits,
else uint8 for asymmetric policy and int8 for symmetric policy. -/
theorem C6_param_integer_folding (opName : GName) (pa : Bool)
    (g : BaseGraph) (isInput : Bool) (idx : ℕ)
    (config : TensorQuantizationConfig) (varName : GName) (v : Variable)
    (hv : g.lookupVar varName = some v)
    (hp : v.is_parameter = true)
    (hexp : TQC_Exportable_Check config v = true)
    (hone : (g.destOps varName).length = 1)
    (hlin : config.policy.linear = true) :
    ∃ g' : BaseGraph,
      processPair opName pa true true g (isInput, idx, config, varName) =
        Except.ok g' ∧
      countOpsOfType g' "DequantizeLinear" =
        countOpsOfType g "DequantizeLinear" + 1 ∧
      countOpsOfType g' "QuantizeLinear" =
        countOpsOfType g "QuantizeLinear" ∧
      g'.lookupVar varName = some ({ v with value := v.value.map (fun t => PPQLinearQuant_toInt t (normalizeState config)) }) ∧
      (∀ t : TensorVal,
        (PPQLinearQuant_toInt t (normalizeState config)).dtype =
          (if 16 < config.num_of_bits then DType.int32
           else if config.policy.symmetric = false then DType.uint8
           else DType.int8)) := by
  have hlin2 : (normalizeState config).policy.linear = true := by
    rw [normalizeState_policy]
    exact hlin
  refine ⟨updateVarValue
      (insert_dequant_on_variable
        (writeBackCfg g opName isInput idx (normalizeState config))
        varName (normalizeState config) opName).1
      varName (fun t => PPQLinearQuant_toInt t (normalizeState config)),
    ?_, ?_, ?_, ?_, ?_⟩
  · simp only [processPair, hv, hexp, hp]
    rw [if_neg (by simp), if_pos (by simp), if_neg (by omega)]
    simp [hlin2]
  · show countOpsOfType
      (insert_dequant_on_variable
        (writeBackCfg g opName isInput idx (normalizeState config))
        varName (normalizeState config) opName).1 "DequantizeLinear" = _
    rw [countOps_insert_dequant_linear _ _ _ _ hlin2,
      countOps_writeBackCfg]
    simp
  · show countOpsOfType
      (insert_dequant_on_variable
        (writeBackCfg g opName isInput idx (normalizeState config))
        varName (normalizeState config) opName).1 "QuantizeLinear" = _
    rw [countOps_insert_dequant_linear _ _ _ _ hlin2,
      countOps_writeBackCfg]
    simp
  · show (updateVarValue
      (insert_dequant_on_variable
        (writeBackCfg g opName isInput idx (normalizeState config))
        varName (normalizeState config) opName).1
      varName _).lookupVar varName = _
    unfold updateVarValue BaseGraph.lookupVar
    rw [show (insert_dequant_on_variable
        (writeBackCfg g opName isInput idx (normalizeState config))
        varName (normalizeState config) opName).1.vars =
      g.vars ++ _ from by
        unfold insert_dequant_on_variable
        rw [if_pos hlin2]
        exact vars_insertCore _ _ _ _ _ varName _]
    rw [List.map_append, List.find?_append, find?_updList]
    rw [show List.find? (fun w => decide (w.name = varName)) g.vars =
      some v from hv]
    rfl
  · intro t
    simp only [PPQLinearQuant_toInt, infer_qtype, normalizeState_policy,
      normalizeState_bits]
    by_cases hb : 16 < config.num_of_bits
    · simp [hb]
    · by_cases hs : config.policy.symmetric
      · simp [hb, hs, Nat.lt_iff_add_one_le]
      · simp only [Bool.not_eq_true] at hs
        simp [hb, hs]

/-- Witness for C6: the single-consumer parameter graph gets one
DequantizeLinear, no QuantizeLinear, and the folded value. -/
theorem C6_param_integer_folding_witness :
    ∃ g' : BaseGraph,
      processPair (GName.user "op") true true true c6Graph
          (true, 0, asymCfg8, GName.user "w") = Except.ok g' ∧
      countOpsOfType g' "DequantizeLinear" =
        countOpsOfType c6Graph "DequantizeLinear" + 1 ∧
      countOpsOfType g' "QuantizeLinear" =
        countOpsOfType c6Graph "QuantizeLinear" ∧
      g'.lookupVar (GName.user "w") =
        some { name := GName.user "w", is_parameter := true
               value := some (PPQLinearQuant_toInt
                 { dtype := DType.fp32, data := [1] }
                 (normalizeState asymCfg8)) } ∧
      (∀ t : TensorVal,
        (PPQLinearQuant_toInt t (normalizeState asymCfg8)).dtype =
          (if 16 < asymCfg8.num_of_bits then DType.int32
           else if asymCfg8.policy.symmetric = false then DType.uint8
           else DType.int8)) :=
  C6_param_integer_folding (GName.user "op") true c6Graph true 0 asymCfg8
    (GName.user "w")
    { name := GName.user "w", is_parameter := true
      value := some { dtype := DType.fp32, data := [1] } }
    (by decide) rfl (by decide) (by decide) rfl

/-- Full evaluation of the activation-removal pass on the canonical
Conv → Relu graph with symbolic configs: whenever the Relu is selected
(asymmetric output config with nonnegative realizable range minimum,
asymmetric input config) it is spliced out and the quantize/dequantize
pair inserted at the former input edge carries the *output* config. -/
theorem c3_elide_eval (icfg ocfg : TensorQuantizationConfig)
    (hasym : ocfg.policy.symmetric = false)
    (hrange : ∃ m : ℚ,
      (List.zipWith (fun s z => s * ((ocfg.quant_min : ℚ) - z))
        ocfg.scale ocfg.offset).min? = some m ∧ 0 ≤ m)
    (hiasym : icfg.policy.symmetric = false)
    (hlin : ocfg.policy.linear = true)
    (hpc : ocfg.policy.perChannel = false) :
    remove_activation_ops (c3GraphF icfg ocfg) = c3ResultF ocfg := by
  have h2 : candidateCheck (c3GraphF icfg ocfg) (c3ReluF icfg ocfg) = true :=
    (candidateCheck_relu_iff (c3GraphF icfg ocfg) (c3ReluF icfg ocfg)
      { input_quantization_config := [icfg]
        output_quantization_config := [ocfg] }
      ocfg rfl rfl rfl).mpr ⟨hasym, hrange⟩
  have h1 : candidateCheck (c3GraphF icfg ocfg) c2Conv = false := by
    simp [candidateCheck, c2Conv]
  have hup : (c3GraphF icfg ocfg).get_upstream_operations
      (c3ReluF icfg ocfg) = [c2Conv] := by
    simp [c3GraphF, c3ReluF, c2Conv, BaseGraph.get_upstream_operations,
      BaseGraph.producerOf, List.filterMap_cons, List.find?]
  have hdown : ((c3GraphF icfg ocfg).get_downstream_operations
      c2Conv).length = 1 := by
    simp [c3GraphF, c3ReluF, c2Conv, BaseGraph.get_downstream_operations,
      BaseGraph.destOps, List.count_cons, List.count_nil]
  have hguard : elisionGuard (c3GraphF icfg ocfg) (c3ReluF icfg ocfg) = true :=
    (elisionGuard_iff (c3GraphF icfg ocfg) (c3ReluF icfg ocfg)
      { input_quantization_config := [icfg]
        output_quantization_config := [ocfg] }
      icfg rfl rfl rfl).mpr
      ⟨⟨c2Conv, hup, rfl, hdown⟩, hiasym⟩
  have h4 : (c3GraphF icfg ocfg).lookupOp (GName.user "relu") =
      some (c3ReluF icfg ocfg) := by
    simp [BaseGraph.lookupOp, c3GraphF, List.find?, c2Conv, c3ReluF]
  unfold remove_activation_ops
  rw [show (c3GraphF icfg ocfg).operations =
    [c2Conv, c3ReluF icfg ocfg] from rfl]
  rw [List.filter_cons, List.filter_cons, h1, h2]
  simp only [Bool.false_eq_true, if_false, if_true, List.filter_nil,
    List.map_cons, List.map_nil, List.foldl_cons, List.foldl_nil]
  rw [show (c3ReluF icfg ocfg).name = GName.user "relu" from rfl]
  rw [h4]
  simp only [hguard, if_true]
  simp only [elideOp]
  rw [hup]
  simp [c3GraphF, c3ReluF, c2Conv, c3ResultF, zpTensor,
    BaseGraph.remove_operation, BaseGraph.create_link_with_var,
    Operation.replaceInput, insert_dequant_on_variable,
    insert_quant_on_variable, insertCore, BaseGraph.lookupOp,
    List.find?, List.filter, hlin, hpc]

/-- C3 (amended): when the activation node is elided, its single input
variable is reconnected toward its single output (the former output
variable disappears from every input list), the elided node's
*output-side* quantization config is reused to insert a fresh
dequantize and quantize node at the former input edge (the inserted
pair's scale constants hold the output config's scale), and a declared
graph output produced by the eliminated node is rebound to the
upstream input variable. -/
theorem C3_amended_splice (icfg ocfg : TensorQuantizationConfig)
    (hasym : ocfg.policy.symmetric = false)
    (hrange : ∃ m : ℚ,
      (List.zipWith (fun s z => s * ((ocfg.quant_min : ℚ) - z))
        ocfg.scale ocfg.offset).min? = some m ∧ 0 ≤ m)
    (hiasym : icfg.policy.symmetric = false)
    (hlin : ocfg.policy.linear = true)
    (hpc : ocfg.policy.perChannel = false) :
    remove_activation_ops (c3GraphF icfg ocfg) = c3ResultF ocfg ∧
    GName.user "relu" ∉ (c3ResultF ocfg).opNames ∧
    (∀ o ∈ (c3ResultF ocfg).operations, GName.user "w" ∉ o.inputs) ∧
    (c3ResultF ocfg).outputs = [GName.user "v"] ∧
    (∃ dq qt : Operation,
      dq ∈ (c3ResultF ocfg).operations ∧ qt ∈ (c3ResultF ocfg).operations ∧
      dq.type = "DequantizeLinear" ∧ qt.type = "QuantizeLinear" ∧
      qt.inputs.head? = some (GName.user "v") ∧
      dq.inputs.head? = qt.outputs.head? ∧
      qt.inputs[1]? = some (GName.gen 4) ∧
      (c3ResultF ocfg).lookupVar (GName.gen 4) =
        some { name := GName.gen 4, is_parameter := true
               value := some { dtype := DType.fp32, data := ocfg.scale } } ∧
      dq.inputs[1]? = some (GName.gen 0) ∧
      (c3ResultF ocfg).lookupVar (GName.gen 0) =
        some { name := GName.gen 0, is_parameter := true
               value := some { dtype := DType.fp32, data := ocfg.scale } }) := by
  refine ⟨c3_elide_eval icfg ocfg hasym hrange hiasym hlin hpc,
    ?_, ?_, rfl, ?_⟩
  · simp [c3ResultF, BaseGraph.opNames, c2Conv]
  · intro o ho
    simp only [c3ResultF, List.mem_cons, List.not_mem_nil, or_false] at ho
    rcases ho with rfl | rfl | rfl <;> simp [c2Conv]
  · refine ⟨c3DqOp, c3QtOp, ?_, ?_, rfl, rfl, rfl, rfl, rfl, ?_, rfl, ?_⟩
    · simp [c3ResultF, c3DqOp]
    · simp [c3ResultF, c3QtOp]
    · simp [c3ResultF, BaseGraph.lookupVar, List.find?]
    · simp [c3ResultF, BaseGraph.lookupVar, List.find?]

/-- C3 counterexample: with distinct exportable input-side (scale `[1]`)
and output-side (scale `[2]`) configs, the elided Relu's inserted
quantize/dequantize pair carries the *output* config's scale `[2]`; the
input-side config's scale `[1]` appears nowhere in the rewritten graph,
refuting the claim that the input-side config is the one reused. -/
theorem C3_counterexample :
    c3CfgIn.scale = [1] ∧ c3CfgOut.scale = [2] ∧
    TQC_Exportable_Check c3CfgIn
      { name := GName.user "v", is_parameter := false, value := none } = true ∧
    remove_activation_ops (c3GraphF c3CfgIn c3CfgOut) = c3ResultF c3CfgOut ∧
    ((c3ResultF c3CfgOut).lookupVar (GName.gen 4)).map (fun w => w.value) =
      some (some { dtype := DType.fp32, data := [2] }) ∧
    ((c3ResultF c3CfgOut).lookupVar (GName.gen 0)).map (fun w => w.value) =
      some (some { dtype := DType.fp32, data := [2] }) ∧
    (∀ w ∈ (c3ResultF c3CfgOut).vars,
      w.value ≠ some { dtype := DType.fp32, data := [1] }) := by
  refine ⟨rfl, rfl, by decide,
    c3_elide_eval c3CfgIn c3CfgOut rfl
      ⟨0, by norm_num [c3CfgOut, asymCfg8, List.min?], le_refl 0⟩
      rfl rfl rfl, ?_, ?_, ?_⟩
  · simp [c3ResultF, BaseGraph.lookupVar, List.find?, c3CfgOut, asymCfg8]
  · simp [c3ResultF, BaseGraph.lookupVar, List.find?, c3CfgOut, asymCfg8]
  · intro w hw
    simp only [c3ResultF, List.mem_cons, List.not_mem_nil, or_false] at hw
    rcases hw with rfl | rfl | rfl | rfl | rfl | rfl | rfl | rfl <;>
      norm_num [zpTensor, c3CfgOut, asymCfg8, infer_qtype] <;> simp

/-- Witness for the amended C3 at the concrete config pair. -/
theorem C3_amended_splice_witness :
    remove_activation_ops (c3GraphF c3CfgIn c3CfgOut) = c3ResultF c3CfgOut ∧
    GName.user "relu" ∉ (c3ResultF c3CfgOut).opNames ∧
    (∀ o ∈ (c3ResultF c3CfgOut).operations, GName.user "w" ∉ o.inputs) ∧
    (c3ResultF c3CfgOut).outputs = [GName.user "v"] ∧
    (∃ dq qt : Operation,
      dq ∈ (c3ResultF c3CfgOut).operations ∧
      qt ∈ (c3ResultF c3CfgOut).operations ∧
      dq.type = "DequantizeLinear" ∧ qt.type = "QuantizeLinear" ∧
      qt.inputs.head? = some (GName.user "v") ∧
      dq.inputs.head? = qt.outputs.head? ∧
      qt.inputs[1]? = some (GName.gen 4) ∧
      (c3ResultF c3CfgOut).lookupVar (GName.gen 4) =
        some { name := GName.gen 4, is_parameter := true
               value := some { dtype := DType.fp32, data := c3CfgOut.scale } } ∧
      dq.inputs[1]? = some (GName.gen 0) ∧
      (c3ResultF c3CfgOut).lookupVar (GName.gen 0) =
        some { name := GName.gen 0, is_parameter := true
               value := some { dtype := DType.fp32, data := c3CfgOut.scale } }) :=
  C3_amended_splice c3CfgIn c3CfgOut rfl
    ⟨0, by norm_num [c3CfgOut, asymCfg8, List.min?], le_refl 0⟩ rfl rfl rfl

/-- Membership in a zipWith comes from members of both lists. -/
theorem mem_zipWith_qq {f : ℚ → ℚ → ℚ} :
    ∀ {a b : List ℚ} {z : ℚ}, z ∈ List.zipWith f a b →
      ∃ x y, x ∈ a ∧ y ∈ b ∧ z = f x y := by
  intro a
  induction a with
  | nil => intro b z h; simp at h
  | cons x xs ih =>
    intro b z h
    cases b with
    | nil => simp at h
    | cons y ys =>
      simp only [List.zipWith_cons_cons, List.mem_cons] at h
      rcases h with rfl | h
      · exact ⟨x, y, by simp, by simp, rfl⟩
      · obtain ⟨x', y', hx, hy, hz⟩ := ih h
        exact ⟨x', y', by simp [hx], by simp [hy], hz⟩

/-- On integer-valued tensors, a maximum absolute difference below one
unit is in fact below one half — the source's `< 0.5` zero-point test
and the spec's "below one unit" agree on integral offsets. -/
theorem int_maxAbsDiff_lt_half (a b : List ℚ)
    (ha : ∀ q ∈ a, ∃ n : ℤ, q = (n : ℚ))
    (hb : ∀ q ∈ b, ∃ n : ℤ, q = (n : ℚ))
    (z : ℚ) (hz : maxAbsDiff a b = some z) (h1 : z < 1) : z < 1/2 := by
  have hmem : z ∈ List.zipWith (fun x y => |x - y|) a b :=
    List.max?_mem (fun x y => max_choice x y) hz
  obtain ⟨x, y, hx, hy, rfl⟩ := mem_zipWith_qq hmem
  obtain ⟨nx, rfl⟩ := ha x hx
  obtain ⟨ny, rfl⟩ := hb y hy
  have h2 : |((nx : ℚ)) - (ny : ℚ)| = |((nx - ny : ℤ) : ℚ)| := by
    push_cast
    ring_nf
  rw [h2] at h1 ⊢
  rw [← Int.cast_abs] at h1 ⊢
  have h3 : |nx - ny| < 1 := by exact_mod_cast h1
  have h5 : 0 ≤ |nx - ny| := abs_nonneg _
  have h4 : |nx - ny| = 0 := by omega
  rw [h4]
  norm_num

/-- C4: duplicate quantize-chain collapse on the canonical
`Dequantize → Quantize → Dequantize → consumer` chain, for integral
zero-point constants: when the scale constants differ by less than the
fixed tolerance `1e-5` and the offset constants by less than one unit,
the QuantizeLinear node and its single downstream consumer are removed
and the chain's input is spliced directly to its output; a scale
difference at or above the tolerance leaves the graph untouched, a
quantize node without exactly one upstream producer leaves the graph
untouched, and a marked quantize node with two downstream consumers
aborts with the structural assertion failure. -/
theorem C4_duplicate_chain_collapse (sv1 zv1 sv2 zv2 : List ℚ)
    (hzint1 : ∀ q ∈ zv1, ∃ n : ℤ, q = (n : ℚ))
    (hzint2 : ∀ q ∈ zv2, ∃ n : ℤ, q = (n : ℚ)) :
    ((∃ s, maxAbsDiff sv1 sv2 = some s ∧ s < 1/100000) →
     (∃ z, maxAbsDiff zv1 zv2 = some z ∧ z < 1) →
     remove_duplicated_quant_op (c4GraphF sv1 zv1 sv2 zv2) =
       Except.ok (c4Result sv1 zv1 sv2 zv2)) ∧
    ((∃ s, maxAbsDiff sv1 sv2 = some s ∧ 1/100000 ≤ s) →
     remove_duplicated_quant_op (c4GraphF sv1 zv1 sv2 zv2) =
       Except.ok (c4GraphF sv1 zv1 sv2 zv2)) ∧
    ((∃ s, maxAbsDiff sv1 sv2 = some s ∧ s < 1/100000) →
     (∃ z, maxAbsDiff zv1 zv2 = some z ∧ z < 1) →
     remove_duplicated_quant_op (c4FanGraphF sv1 zv1 sv2 zv2) =
       Except.error ExportErr.brokenGraph) ∧
    (remove_duplicated_quant_op (c4NoUpGraphF sv1 zv1 sv2 zv2) =
       Except.ok (c4NoUpGraphF sv1 zv1 sv2 zv2)) := by
  have hip : interestedPairs (c4GraphF sv1 zv1 sv2 zv2) = [(c4Qt, c4Dq)] := by
    simp [interestedPairs, c4GraphF, c4Dq, c4Qt, c4C, c4F,
      BaseGraph.get_upstream_operations, BaseGraph.producerOf,
      List.filterMap_cons, List.find?]
  have hv1 : inputValData (c4GraphF sv1 zv1 sv2 zv2) c4Dq 1 = some sv1 := by
    simp [inputValData, c4GraphF, c4Dq, c4Vars, BaseGraph.lookupVar, List.find?]
  have hv2 : inputValData (c4GraphF sv1 zv1 sv2 zv2) c4Qt 1 = some sv2 := by
    simp [inputValData, c4GraphF, c4Qt, c4Vars, BaseGraph.lookupVar, List.find?]
  have hv3 : inputValData (c4GraphF sv1 zv1 sv2 zv2) c4Dq 2 = some zv1 := by
    simp [inputValData, c4GraphF, c4Dq, c4Vars, BaseGraph.lookupVar, List.find?]
  have hv4 : inputValData (c4GraphF sv1 zv1 sv2 zv2) c4Qt 2 = some zv2 := by
    simp [inputValData, c4GraphF, c4Qt, c4Vars, BaseGraph.lookupVar, List.find?]
  have hdn : (c4GraphF sv1 zv1 sv2 zv2).get_downstream_operations c4Qt =
      [c4C] := by
    simp [c4GraphF, c4Dq, c4Qt, c4C, c4F, BaseGraph.get_downstream_operations,
      BaseGraph.destOps, List.count_cons, List.count_nil]
  refine ⟨?_, ?_, ?_, ?_⟩
  · rintro ⟨s, hs1, hs2⟩ ⟨z, hz1, hz2⟩
    have hzhalf := int_maxAbsDiff_lt_half zv1 zv2 hzint1 hzint2 z hz1 hz2
    have hmarks : computeMarks (c4GraphF sv1 zv1 sv2 zv2) =
        Except.ok [GName.user "qt", GName.user "c"] := by
      unfold computeMarks
      rw [hip]
      simp only [List.foldlM, hv1, hv2, hv3, hv4, hs1, hz1, hdn]
      rw [if_pos ⟨hs2, hzhalf⟩]
      simp [insertName, c4Qt, c4C]
    unfold remove_duplicated_quant_op
    rw [hmarks]
    simp only []
    show Except.ok _ = _
    simp [List.foldl_cons, List.foldl_nil, spliceOutOp, BaseGraph.lookupOp,
      List.find?, c4GraphF, c4Dq, c4Qt, c4C, c4F, BaseGraph.remove_operation,
      BaseGraph.create_link_with_var, Operation.replaceInput, c4Vars,
      c4Result, List.filter]
  · rintro ⟨s, hs1, hs2⟩
    have hmarks : computeMarks (c4GraphF sv1 zv1 sv2 zv2) = Except.ok [] := by
      unfold computeMarks
      rw [hip]
      simp only [List.foldlM, hv1, hv2, hv3, hv4, hs1]
      cases hzd : maxAbsDiff zv1 zv2 with
      | none => simp
      | some z =>
        have hno : ¬ (s < 1/100000 ∧ z < 1/2) := by
          rintro ⟨h1, _⟩
          linarith
        simp only [List.foldlM]
        rw [if_neg hno]
        rfl
    unfold remove_duplicated_quant_op
    rw [hmarks]
    rfl
  · rintro ⟨s, hs1, hs2⟩ ⟨z, hz1, hz2⟩
    have hzhalf := int_maxAbsDiff_lt_half zv1 zv2 hzint1 hzint2 z hz1 hz2
    have hipf : interestedPairs (c4FanGraphF sv1 zv1 sv2 zv2) =
        [(c4Qt, c4Dq)] := by
      simp [interestedPairs, c4FanGraphF, c4Dq, c4Qt, c4C, c4F, c4C2,
        BaseGraph.get_upstream_operations, BaseGraph.producerOf,
        List.filterMap_cons, List.find?]
    have hfv1 : inputValData (c4FanGraphF sv1 zv1 sv2 zv2) c4Dq 1 =
        some sv1 := by
      simp [inputValData, c4FanGraphF, c4Dq, c4Vars, BaseGraph.lookupVar,
        List.find?]
    have hfv2 : inputValData (c4FanGraphF sv1 zv1 sv2 zv2) c4Qt 1 =
        some sv2 := by
      simp [inputValData, c4FanGraphF, c4Qt, c4Vars, BaseGraph.lookupVar,
        List.find?]
    have hfv3 : inputValData (c4FanGraphF sv1 zv1 sv2 zv2) c4Dq 2 =
        some zv1 := by
      simp [inputValData, c4FanGraphF, c4Dq, c4Vars, BaseGraph.lookupVar,
        List.find?]
    have hfv4 : inputValData (c4FanGraphF sv1 zv1 sv2 zv2) c4Qt 2 =
        some zv2 := by
      simp [inputValData, c4FanGraphF, c4Qt, c4Vars, BaseGraph.lookupVar,
        List.find?]
    have hfdn : (c4FanGraphF sv1 zv1 sv2 zv2).get_downstream_operations c4Qt =
        [c4C, c4C2] := by
      simp [c4FanGraphF, c4Dq, c4Qt, c4C, c4F, c4C2,
        BaseGraph.get_downstream_operations, BaseGraph.destOps,
        List.count_cons, List.count_nil]
    have hmarks : computeMarks (c4FanGraphF sv1 zv1 sv2 zv2) =
        Except.error ExportErr.brokenGraph := by
      unfold computeMarks
      rw [hipf]
      simp only [List.foldlM, hfv1, hfv2, hfv3, hfv4, hs1, hz1, hfdn]
      rw [if_pos ⟨hs2, hzhalf⟩]
      rfl
    unfold remove_duplicated_quant_op
    rw [hmarks]
  · have hipn : interestedPairs (c4NoUpGraphF sv1 zv1 sv2 zv2) = [] := by
      simp [interestedPairs, c4NoUpGraphF, c4Qt, c4C, c4F,
        BaseGraph.get_upstream_operations, BaseGraph.producerOf,
        List.filterMap_cons, List.find?]
    have hmarks : computeMarks (c4NoUpGraphF sv1 zv1 sv2 zv2) =
        Except.ok [] := by
      unfold computeMarks
      rw [hipn]
      rfl
    unfold remove_duplicated_quant_op
    rw [hmarks]
    rfl

/-- Witness for C4: the spec's `Dequantize(scale=0.2, offset=5) →
Quantize(scale=0.2, offset=5)` chain with one consumer collapses. -/
theorem C4_duplicate_chain_collapse_witness :
    remove_duplicated_quant_op (c4GraphF [1/5] [5] [1/5] [5]) =
      Except.ok (c4Result [1/5] [5] [1/5] [5]) :=
  (C4_duplicate_chain_collapse [1/5] [5] [1/5] [5]
      (by
        intro q hq
        simp only [List.mem_singleton] at hq
        exact ⟨5, by rw [hq]; norm_num⟩)
      (by
        intro q hq
        simp only [List.mem_singleton] at hq
        exact ⟨5, by rw [hq]; norm_num⟩)).1
    ⟨0, by norm_num [maxAbsDiff, List.max?], by norm_num⟩
    ⟨0, by norm_num [maxAbsDiff, List.max?], by norm_num⟩
